import Mathlib

/-!
Verification of the geosatpy raster geoprocessing pipeline (src/geosatpy.py)
against its natural-language specification.

The embedding models:
  * pixel planes and rasters as concrete lists of integer samples (the code
    never computes with pixel values, it only moves them, so the numeric
    carrier is irrelevant and `Int` is used);
  * the filesystem as an association list from path strings to files;
  * the external geospatial I/O library (GDAL) primitives the code calls
    (`gdal.Open`, `gdal.BuildVRT`, `gdal.Translate`, `gdal.Warp`,
    driver `Create` and band writes, `np.dstack`) as state transformers,
    following the interface contract the spec gives for the external
    collaborator where the primitive is only described there;
  * Python exceptions as an explicit error result carrying the filesystem
    and the event trace at the moment of the raise.
-/

namespace Geosatpy

/-- A single raster plane: a height-by-width grid of samples, row-major. -/
abbrev Plane := List (List Int)

/-- An opened raster dataset: band planes (1-indexed in the API, element 0 of
the list is band 1), the six-coefficient geotransform, and the projection
string, together with its pixel height and width. -/
structure Raster where
  height : Nat
  width : Nat
  bands : List Plane
  geotransform : List Int
  projection : String
deriving DecidableEq, Repr

/-- The four radiometric types the code recognizes in its dtype chains. -/
inductive GDT where
  | float32
  | float64
  | uint16
  | byte
deriving DecidableEq, Repr

/-- Well-formedness of a plane with respect to given dimensions. -/
def PlaneDims (p : Plane) (h w : Nat) : Prop :=
  p.length = h ∧ ∀ row ∈ p, row.length = w

instance (p : Plane) (h w : Nat) : Decidable (PlaneDims p h w) := by
  unfold PlaneDims; infer_instance

/-- Well-formedness of an opened raster: at least one band and every band
plane has the declared dimensions. -/
def Raster.WF (r : Raster) : Prop :=
  r.bands ≠ [] ∧ ∀ p ∈ r.bands, PlaneDims p r.height r.width

instance (r : Raster) : Decidable r.WF := by
  unfold Raster.WF; infer_instance

/-- A record of one gdal.Warp invocation with the options the source passes. -/
structure WarpCall where
  dst : String
  src : String
  width : Option Int
  height : Option Int
  xRes : Option Int
  yRes : Option Int
  outputType : GDT
  resampleAlg : Nat
deriving DecidableEq, Repr

/-- The raster dataset save_tiff assembles through the GTiff driver. -/
structure OutRaster where
  width : Nat
  height : Nat
  nBands : Nat
  pixelType : GDT
  geotransform : List Int
  projection : String
  noData : List (Option Int)
  planes : List Plane
  flushed : Bool
deriving DecidableEq, Repr

/-- A file on the modelled filesystem.  Besides source rasters it records the
derived outputs the pipeline produces; re-opening a derived output as a
raster is not needed by any claim and is not modelled. -/
inductive File where
  /-- A raster source readable through gdal.Open. -/
  | raster (r : Raster)
  /-- A virtual-mosaic descriptor written by gdal.BuildVRT: the ordered list
  of source paths it references. -/
  | vrtDescriptor (sources : List String)
  /-- The materialization of a virtual mosaic by gdal.Translate, abstracted
  to the sources it rendered. -/
  | mosaicTiff (sources : List String)
  /-- A tile written by gdal.Translate with a srcWin window: the source path,
  the clipped width and height, the options, and the extracted samples. -/
  | tileFile (src : String) (w h : Nat) (outputType : GDT) (noData : Option Int)
      (data : List Plane)
  /-- The output of gdal.Warp. -/
  | warpOutput (c : WarpCall)
  /-- The dataset written by save_tiff. -/
  | savedTiff (out : OutRaster)
deriving DecidableEq, Repr

/-- The filesystem: an association list from paths to files.  A newly
written file is consed to the front, so lookup sees the latest write. -/
abbrev FS := List (String × File)

/-- Path lookup, first match wins. -/
def fsLookup (fs : FS) (path : String) : Option File :=
  match fs with
  | [] => none
  | (k, f) :: rest => if k = path then some f else fsLookup rest path

/-- Python exceptions the modelled code can raise. -/
inductive PyErr where
  /-- Raised when a call supplies too few or too many positional arguments. -/
  | typeError
  /-- Raised when a name (here: outputType after an unrecognized dtype chain)
  is referenced while unbound. -/
  | nameError
  /-- Raised when an attribute (such as .shape or .GetGeoTransform) is read
  on None. -/
  | attributeError
  /-- Raised by the band write when handed an array of the wrong rank. -/
  | valueError
  /-- Raised by os.remove on a missing path. -/
  | fileNotFoundError
  /-- Materialization failure of the external library (spec section 4.3:
  a source referenced by the descriptor is missing at render time). -/
  | renderFailure
deriving DecidableEq, Repr

/-- Observable events of a run, in order. -/
inductive Event where
  | builtVRT (sources : List String) (dst : String)
  | translatedVRT (src dst : String)
  | removedFile (path : String)
  | wroteTile (name : String) (w h : Nat)
  | printed (s : String)
  | warped (c : WarpCall)
  | savedFile (path : String)
deriving DecidableEq, Repr

/-- Failure outcome: the exception together with the filesystem and trace at
the moment of the raise. -/
abbrev Fail := PyErr × FS × List Event

/-- Outcome of an effectful operation: either a failure, or the filesystem,
the extended trace, and a value. -/
abbrev PyResult (α : Type) := Except Fail (FS × List Event × α)

/-- Model of gdal.Open: succeeds exactly on paths holding a raster source.
The code never re-opens its own derived outputs, so those are not given a
raster view. -/
def gdalOpen (fs : FS) (path : String) : Option Raster :=
  match fsLookup fs path with
  | some (.raster r) => some r
  | _ => none

/-- Model of np.dstack applied to the (bands, height, width) array that
ReadAsArray returns for a multi-band raster: the result is indexed
height, then width, then band, so the band axis becomes the last axis. -/
def dstack (h w : Nat) (planes : List Plane) : List (List (List Int)) :=
  (List.range h).map fun i =>
    (List.range w).map fun j =>
      planes.map fun p => (p.getD i []).getD j 0

/-- An in-memory numpy array as the code distinguishes them: rank 2
(height by width) or rank 3 (height by width by bands). -/
inductive NpArray where
  | r2 (data : List (List Int))
  | r3 (data : List (List (List Int)))
deriving DecidableEq, Repr

/-- Result of GeoProcess.asArray: either an array, or the no-data report
(the source returns the value of a print call, which prints the no-data
message naming the path and returns None), or an exception from an invalid
band request. -/
inductive AsArrayResult where
  | array (a : NpArray)
  | noData (printed : String)
  | raised (e : PyErr)
deriving DecidableEq, Repr

/-- GeoProcess.asArray (src/geosatpy.py lines 79-110): opens `path`
read-only; when it opens, with `band` unset it returns all bands, dstacked
to band-last order when there are several, and with `band` set it returns
that single 1-indexed band; when the open fails it prints the no-data
message and returns None. -/
def asArray (fs : FS) (path : String) (band : Option Nat) : AsArrayResult :=
  match gdalOpen fs path with
  | some data =>
    let num_bands := data.bands.length
    match band with
    | none =>
      if num_bands > 1 then
        .array (.r3 (dstack data.height data.width data.bands))
      else
        .array (.r2 (data.bands.headD []))
    | some b =>
      -- data.GetRasterBand(b).ReadAsArray(): a band index outside
      -- 1..RasterCount makes GetRasterBand return None and the read on
      -- None raises AttributeError.
      if b = 0 then .raised .attributeError
      else
        match data.bands.get? (b - 1) with
        | some p => .array (.r2 p)
        | none => .raised .attributeError
  | none => .noData ("No data in " ++ path)

/-- Value of a rank-2 list grid at row i, column j (0 outside). -/
def at2 (d : List (List Int)) (i j : Nat) : Int :=
  (d.getD i []).getD j 0

/-- Value of a rank-3 list grid at row i, column j, layer k (0 outside). -/
def at3 (d : List (List (List Int))) (i j k : Nat) : Int :=
  ((d.getD i []).getD j []).getD k 0

theorem getD_map_range {α : Type} (f : Nat → α) (n i : Nat) (d : α) (h : i < n) :
    (((List.range n).map f).getD i d) = f i := by
  rw [List.getD_eq_getElem?_getD, List.getElem?_map, List.getElem?_range h]
  rfl

theorem getD_map_of_lt {α β : Type} (f : α → β) (l : List α) (i : Nat) (d : β)
    (dflt : α) (h : i < l.length) :
    ((l.map f).getD i d) = f (l.getD i dflt) := by
  rw [List.getD_eq_getElem?_getD, List.getElem?_map,
    List.getElem?_eq_getElem h, List.getD_eq_getElem?_getD,
    List.getElem?_eq_getElem h]
  rfl

/-- Pointwise content of dstack: inside the grid, layer k of cell (i, j) is
cell (i, j) of plane k; outside the band list both sides default to 0. -/
theorem at3_dstack (h w : Nat) (planes : List Plane) (i j k : Nat)
    (hi : i < h) (hj : j < w) :
    at3 (dstack h w planes) i j k = at2 (planes.getD k []) i j := by
  unfold at3 dstack
  rw [getD_map_range _ _ _ _ hi, getD_map_range _ _ _ _ hj]
  by_cases hk : k < planes.length
  · rw [getD_map_of_lt _ _ _ _ [] hk]; rfl
  · rw [List.getD_eq_getElem?_getD, List.getElem?_map]
    have hk' : planes.length ≤ k := Nat.le_of_not_lt hk
    rw [List.getElem?_eq_none (by simpa using hk'),
      List.getD_eq_getElem?_getD, List.getElem?_eq_none (by simpa using hk')]
    rfl

theorem dstack_length (h w : Nat) (planes : List Plane) :
    (dstack h w planes).length = h := by
  simp [dstack]

theorem dstack_row_length (h w : Nat) (planes : List Plane) (i : Nat)
    (hi : i < h) : ((dstack h w planes).getD i []).length = w := by
  unfold dstack
  rw [getD_map_range _ _ _ _ hi]
  simp

theorem dstack_cell_length (h w : Nat) (planes : List Plane) (i j : Nat)
    (hi : i < h) (hj : j < w) :
    (((dstack h w planes).getD i []).getD j []).length = planes.length := by
  unfold dstack
  rw [getD_map_range _ _ _ _ hi, getD_map_range _ _ _ _ hj]
  simp

/-- C4.  For every readable raster: with `band` unset and more than one band,
asArray returns the rank-3 dstacked array, of shape height by width by
nBands, whose last axis indexes the bands in source order; with `band` unset
and exactly one band it returns that band as a rank-2 height-by-width array;
and with `band` set to a valid 1-indexed band it returns exactly that band
as a rank-2 array. -/
theorem asArray_band_modes (fs : FS) (path : String) (r : Raster)
    (hopen : gdalOpen fs path = some r) (hwf : r.WF) :
    (1 < r.bands.length →
      asArray fs path none = .array (.r3 (dstack r.height r.width r.bands)) ∧
      (dstack r.height r.width r.bands).length = r.height ∧
      (∀ i < r.height,
        ((dstack r.height r.width r.bands).getD i []).length = r.width) ∧
      (∀ i < r.height, ∀ j < r.width,
        (((dstack r.height r.width r.bands).getD i []).getD j []).length
          = r.bands.length) ∧
      (∀ i < r.height, ∀ j < r.width, ∀ k,
        at3 (dstack r.height r.width r.bands) i j k
          = at2 (r.bands.getD k []) i j)) ∧
    (r.bands.length = 1 →
      asArray fs path none = .array (.r2 (r.bands.headD [])) ∧
      (r.bands.headD []).length = r.height ∧
      ∀ row ∈ r.bands.headD [], row.length = r.width) ∧
    (∀ b p, r.bands.get? (b - 1) = some p → b ≠ 0 →
      asArray fs path (some b) = .array (.r2 p)) := by
  refine ⟨?_, ?_, ?_⟩
  · intro hmulti
    refine ⟨?_, dstack_length _ _ _, fun i hi => dstack_row_length _ _ _ i hi,
      fun i hi j hj => dstack_cell_length _ _ _ i j hi hj,
      fun i hi j hj k => at3_dstack _ _ _ i j k hi hj⟩
    simp only [asArray, hopen]
    rw [if_pos hmulti]
  · intro hone
    have hhead : ∃ p, r.bands = [p] := by
      match hb : r.bands with
      | [] => rw [hb] at hone; simp at hone
      | [p] => exact ⟨p, rfl⟩
      | p :: q :: rest => rw [hb] at hone; simp at hone
    obtain ⟨p, hp⟩ := hhead
    have hpdims : PlaneDims p r.height r.width := by
      have := hwf.2 p (by rw [hp]; exact List.mem_singleton.mpr rfl)
      exact this
    refine ⟨?_, ?_, ?_⟩
    · simp only [asArray, hopen]
      rw [if_neg (by omega)]
    · rw [hp]; exact hpdims.1
    · intro row hrow
      rw [hp] at hrow
      exact hpdims.2 row hrow
  · intro b p hget hb0
    simp only [asArray, hopen]
    rw [if_neg hb0, hget]

/-- A 2-by-3 sample plane. -/
def samplePlane1 : Plane := [[1, 2, 3], [4, 5, 6]]

/-- A second 2-by-3 sample plane. -/
def samplePlane2 : Plane := [[10, 20, 30], [40, 50, 60]]

/-- A two-band 2-by-3 sample raster. -/
def sampleTwoBand : Raster :=
  { height := 2, width := 3, bands := [samplePlane1, samplePlane2],
    geotransform := [0, 1, 0, 0, 0, -1], projection := "P" }

/-- A one-band 2-by-3 sample raster. -/
def sampleOneBand : Raster :=
  { height := 2, width := 3, bands := [samplePlane1],
    geotransform := [0, 1, 0, 0, 0, -1], projection := "P" }

/-- A sample filesystem holding the two sample rasters. -/
def sampleFS : FS :=
  [("a.tif", .raster sampleTwoBand), ("b.tif", .raster sampleOneBand)]

/-- Witness for C4 at concrete inputs: a two-band 2x3 raster exercises the
stacked mode (checking the band-last layout pointwise), a one-band raster
the rank-2 mode, and band selection the single-band mode. -/
theorem asArray_band_modes_witness :
    asArray sampleFS "a.tif" none =
      .array (.r3 (dstack 2 3 [samplePlane1, samplePlane2])) ∧
    at3 (dstack 2 3 [samplePlane1, samplePlane2]) 1 2 0 = 6 ∧
    at3 (dstack 2 3 [samplePlane1, samplePlane2]) 1 2 1 = 60 ∧
    asArray sampleFS "b.tif" none = .array (.r2 samplePlane1) ∧
    asArray sampleFS "a.tif" (some 2) = .array (.r2 samplePlane2) := by
  have hopen : gdalOpen sampleFS "a.tif" = some sampleTwoBand := by decide
  have hopen1 : gdalOpen sampleFS "b.tif" = some sampleOneBand := by decide
  have h2 := asArray_band_modes sampleFS "a.tif" sampleTwoBand hopen
    (by decide)
  have h1 := asArray_band_modes sampleFS "b.tif" sampleOneBand hopen1
    (by decide)
  refine ⟨(h2.1 (by decide)).1, by decide, by decide,
    (h1.2.1 (by decide)).1, h2.2.2 2 samplePlane2 (by decide) (by decide)⟩

/-- C5.  When the path cannot be opened as a raster, asArray does not get an
exception from the external library: it detects the None handle itself,
reports the failure (printing the no-data message naming the path) and
returns no array. -/
theorem asArray_open_failure_reported (fs : FS) (path : String)
    (band : Option Nat) (hfail : gdalOpen fs path = none) :
    asArray fs path band = .noData ("No data in " ++ path) ∧
    ∀ a, asArray fs path band ≠ .array a := by
  constructor
  · simp only [asArray, hfail]
  · intro a
    simp only [asArray, hfail]
    intro hcontra
    exact AsArrayResult.noConfusion hcontra

/-- Witness for C5: on an empty filesystem the open fails and the no-data
report is returned. -/
theorem asArray_open_failure_reported_witness :
    asArray [] "missing.tif" none = .noData "No data in missing.tif" ∧
    ∀ a, asArray [] "missing.tif" none ≠ .array a :=
  asArray_open_failure_reported [] "missing.tif" none rfl

/-- The dtype selection chain the code repeats in tiling, resizing, crop and
save_tiff: four independent string comparisons.  The four tested strings are
pairwise distinct, so the chain binds outputType to at most one value; an
unrecognized dtype leaves outputType unbound, which is modelled as `none`
and raises NameError at the point outputType is first referenced. -/
def dtypeToGDT (dtype : String) : Option GDT :=
  if dtype = "Float32" then some .float32
  else if dtype = "Float64" then some .float64
  else if dtype = "UInt16" then some .uint16
  else if dtype = "Byte" then some .byte
  else none

/-- Python str() of an optional integer, as interpolated by format(). -/
def pyStr (o : Option Int) : String :=
  match o with
  | none => "None"
  | some n => toString n

/-- Resampling-algorithm code 2 of the external geospatial I/O library
(GDAL, public GDALResampleAlg enum): cubic convolution. -/
def GRA_Cubic : Nat := 2

/-- Resampling-algorithm code 3 of the external geospatial I/O library
(GDAL, public GDALResampleAlg enum): cubic B-spline. -/
def GRA_CubicSpline : Nat := 3


/-- The warp options the dimension-mode branch of resizing passes: width and
height as given, resolution options not passed, resampleAlg = 3. -/
def dimWarp (src dst : String) (width height : Option Int) (t : GDT) : WarpCall :=
  { dst := dst, src := src, width := width, height := height,
    xRes := none, yRes := none, outputType := t, resampleAlg := 3 }

/-- The warp options the resolution-mode branch of resizing passes: xRes and
yRes as given, dimension options not passed, resampleAlg = 3. -/
def resWarp (src dst : String) (xRes yRes : Option Int) (t : GDT) : WarpCall :=
  { dst := dst, src := src, width := none, height := none,
    xRes := xRes, yRes := yRes, outputType := t, resampleAlg := 3 }

/-- GeoProcess.resizing (src/geosatpy.py lines 225-281): two independent
guarded blocks.  The first fires when xRes and yRes are both unset, prints
the new size and warps with the width/height options; the second fires when
width and height are both unset, prints the new resolution and warps with
the xRes/yRes options.  Each executed warp writes the destination file; an
unrecognized dtype raises NameError at the first executed warp, where the
unbound outputType is referenced. -/
def resizing (src dst : String) (width height xRes yRes : Option Int)
    (dtype : String) (fs : FS) (tr : List Event) : PyResult Unit :=
  let outputType := dtypeToGDT dtype
  let step1 : PyResult Unit :=
    if xRes = none then
      if yRes = none then
        let tr := tr ++ [.printed ("New size : width = " ++ pyStr width ++
          " / height = " ++ pyStr height)]
        match outputType with
        | none => .error (.nameError, fs, tr)
        | some t =>
          let c := dimWarp src dst width height t
          .ok ((dst, .warpOutput c) :: fs, tr ++ [.warped c], ())
      else .ok (fs, tr, ())
    else .ok (fs, tr, ())
  match step1 with
  | .error e => .error e
  | .ok (fs, tr, _) =>
    if width = none then
      if height = none then
        let tr := tr ++ [.printed ("New resolution : xRes = " ++ pyStr xRes ++
          " / yRes = " ++ pyStr yRes)]
        match outputType with
        | none => .error (.nameError, fs, tr)
        | some t =>
          let c := resWarp src dst xRes yRes t
          .ok ((dst, .warpOutput c) :: fs, tr ++ [.warped c], ())
      else .ok (fs, tr, ())
    else .ok (fs, tr, ())

/-- Event trace of an outcome, whether it succeeded or raised. -/
def resultTrace {α : Type} (r : PyResult α) : List Event :=
  match r with
  | .error (_, _, tr) => tr
  | .ok (_, tr, _) => tr

/-- C6.  When dimension and resolution parameters are mixed (at least one of
width/height set and at least one of xRes/yRes set), neither guard of
resizing is satisfied: no resampling happens, no file is written, nothing is
printed, and no error is reported.  The run returns with the filesystem and
trace exactly as they were. -/
theorem resizing_mixed_params_silent_noop (src dst : String)
    (width height xRes yRes : Option Int) (dtype : String)
    (fs : FS) (tr : List Event)
    (hdim : width ≠ none ∨ height ≠ none)
    (hres : xRes ≠ none ∨ yRes ≠ none) :
    resizing src dst width height xRes yRes dtype fs tr = .ok (fs, tr, ()) := by
  by_cases hx : xRes = none
  · have hy : yRes ≠ none := by
      rcases hres with h | h
      · exact absurd hx h
      · exact h
    by_cases hw : width = none
    · have hh : height ≠ none := by
        rcases hdim with h | h
        · exact absurd hw h
        · exact h
      simp [resizing, hx, hy, hw, hh]
    · simp [resizing, hx, hy, hw]
  · by_cases hw : width = none
    · have hh : height ≠ none := by
        rcases hdim with h | h
        · exact absurd hw h
        · exact h
      simp [resizing, hx, hw, hh]
    · simp [resizing, hx, hw]

/-- Witness for C6: width set together with yRes set (the other two unset)
returns untouched state, writes nothing and raises nothing. -/
theorem resizing_mixed_params_silent_noop_witness :
    resizing "in.tif" "out.tif" (some 100) none none (some 30) "Float32" [] []
      = .ok ([], [], ()) :=
  resizing_mixed_params_silent_noop "in.tif" "out.tif" (some 100) none none
    (some 30) "Float32" [] [] (Or.inl (by decide)) (Or.inr (by decide))

/-- C7 counterexample.  The resampling that resizing performs is not cubic
convolution: at a concrete dimension-mode call, the warp it issues carries
the external resampling code 3, which the external library defines as cubic
B-spline (GRA_CubicSpline), a different algorithm from cubic convolution,
whose code is GRA_Cubic = 2. -/
theorem resizing_resampleAlg_not_cubic_convolution :
    Event.warped (dimWarp "in.tif" "out.tif" (some 100) (some 80) .float32) ∈
      resultTrace (resizing "in.tif" "out.tif" (some 100) (some 80)
        none none "Float32" [] []) ∧
    (dimWarp "in.tif" "out.tif" (some 100) (some 80) .float32).resampleAlg
      = GRA_CubicSpline ∧
    GRA_CubicSpline ≠ GRA_Cubic := by
  refine ⟨by decide, by decide, by decide⟩

/-- C7 amended.  Every resampling performed by resizing, in both the
target-dimension mode and the target-resolution mode, uses the one fixed
resampling algorithm with external code 3 (the cubic B-spline code of the
external library, not cubic convolution). -/
theorem resizing_fixed_resampleAlg (src dst : String)
    (width height xRes yRes : Option Int) (dtype : String) (fs : FS)
    (c : WarpCall)
    (hc : Event.warped c ∈
      resultTrace (resizing src dst width height xRes yRes dtype fs [])) :
    c.resampleAlg = GRA_CubicSpline := by
  unfold resizing at hc
  by_cases hx : xRes = none <;> by_cases hy : yRes = none <;>
    by_cases hw : width = none <;> by_cases hh : height = none <;>
    cases hgdt : dtypeToGDT dtype <;>
    simp [hx, hy, hw, hh, hgdt, resultTrace] at hc <;>
    first
    | exact hc.elim
    | (rcases hc with hc | hc <;> (subst hc; rfl))
    | (subst hc; rfl)

/-- Witness for C7 amended: the warp issued by a concrete dimension-mode
resize carries resampling code 3, the cubic B-spline code. -/
theorem resizing_fixed_resampleAlg_witness :
    (Event.warped (dimWarp "a.tif" "b.tif" (some 50) (some 40) .float32) ∈
      resultTrace (resizing "a.tif" "b.tif" (some 50) (some 40)
        none none "Float32" [] [])) ∧
    (dimWarp "a.tif" "b.tif" (some 50) (some 40) .float32).resampleAlg
      = GRA_CubicSpline :=
  ⟨by decide,
    resizing_fixed_resampleAlg "a.tif" "b.tif" (some 50) (some 40)
      none none "Float32" [] _ (by decide)⟩

/-- C10.  With all four of width, height, xRes and yRes unset, both guards
of resizing are satisfied: the warp primitive runs twice on the same source
and destination, first from the dimension branch (width and height passed,
both unset) and then from the resolution branch (xRes and yRes passed, both
unset), each warp writing the destination; the call is neither rejected nor
a no-op. -/
theorem resizing_all_unset_warps_twice (src dst : String) (fs : FS) :
    resizing src dst none none none none "Float32" fs [] =
      .ok ((dst, .warpOutput (resWarp src dst none none .float32)) ::
            (dst, .warpOutput (dimWarp src dst none none .float32)) :: fs,
        [.printed "New size : width = None / height = None",
          .warped (dimWarp src dst none none .float32),
          .printed "New resolution : xRes = None / yRes = None",
          .warped (resWarp src dst none none .float32)], ()) := by
  rfl


/-- Slice nparray[:, :, k] of a rank-3 array: layer k of every cell. -/
def slice3 (d : List (List (List Int))) (k : Nat) : Plane :=
  d.map fun row => row.map fun cell => cell.getD k 0

/-- Well-formedness of a rank-3 list grid with respect to dimensions. -/
def Np3Dims (d : List (List (List Int))) (h w b : Nat) : Prop :=
  d.length = h ∧ ∀ row ∈ d, row.length = w ∧ ∀ cell ∈ row, cell.length = b

instance (d : List (List (List Int))) (h w b : Nat) :
    Decidable (Np3Dims d h w b) := by
  unfold Np3Dims; infer_instance

/-- GeoProcess.save_tiff (src/geosatpy.py lines 320-370): opens the
projection and geometry reference files, reads (cols, rows) and the band
count off the array shape (rank 2 gives one band, rank 3 takes the last
axis), selects the pixel type by the dtype chain, creates a GTiff dataset
of rows-by-cols-by-bands, copies the geotransform from the geometry
reference and the projection from the projection reference, sets the
no-data value on every band, writes each band plane, and flushes.

Modelled failure points follow the source statement order: an unrecognized
dtype leaves outputType unbound and raises NameError where the Create call
references it; an unreadable reference makes gdal.Open return None and the
later attribute access on it raises AttributeError (a zero dimension or
zero band count likewise yields a None dataset from Create, surfacing as
AttributeError at the same statement); in the single-band branch the whole
array is handed to the band write, which only accepts rank-2 data, so a
rank-3 array with a single last-axis layer raises ValueError there, leaving
the partially initialized output (no-data set, plane unwritten, never
flushed) behind.  The stepwise dataset mutations of the source are gathered
into the final record each run produces. -/
def save_tiff (dst_filename : String) (nparray : NpArray)
    (ref_proj ref_geom : String) (dtype : String) (nodata_value : Int)
    (fs : FS) (tr : List Event) : PyResult Unit :=
  let proj_ref := gdalOpen fs ref_proj
  let geom_ref := gdalOpen fs ref_geom
  match dtypeToGDT dtype with
  | none => .error (.nameError, fs, tr)
  | some outputType =>
    match geom_ref with
    | none => .error (.attributeError, fs, tr)
    | some g =>
      match proj_ref with
      | none => .error (.attributeError, fs, tr)
      | some p =>
        match nparray with
        | .r2 d =>
          let cols := d.length
          let rows := (d.headD []).length
          if rows = 0 ∨ cols = 0 then .error (.attributeError, fs, tr)
          else
            let outdata : OutRaster :=
              { width := rows, height := cols, nBands := 1,
                pixelType := outputType, geotransform := g.geotransform,
                projection := p.projection, noData := [some nodata_value],
                planes := [d], flushed := true }
            .ok ((dst_filename, .savedTiff outdata) :: fs,
              tr ++ [.savedFile dst_filename], ())
        | .r3 d =>
          let cols := d.length
          let rows := (d.headD []).length
          let bands := ((d.headD []).headD []).length
          if rows = 0 ∨ cols = 0 ∨ bands = 0 then
            .error (.attributeError, fs, tr)
          else if bands > 1 then
            let outdata : OutRaster :=
              { width := rows, height := cols, nBands := bands,
                pixelType := outputType, geotransform := g.geotransform,
                projection := p.projection,
                noData := List.replicate bands (some nodata_value),
                planes := (List.range bands).map (slice3 d),
                flushed := true }
            .ok ((dst_filename, .savedTiff outdata) :: fs,
              tr ++ [.savedFile dst_filename], ())
          else
            let outdata : OutRaster :=
              { width := rows, height := cols, nBands := 1,
                pixelType := outputType, geotransform := g.geotransform,
                projection := p.projection, noData := [some nodata_value],
                planes := [[]], flushed := false }
            .error (.valueError,
              (dst_filename, .savedTiff outdata) :: fs, tr)

/-- Run of save_tiff on a well-formed nonempty rank-2 array with readable
references and a recognized dtype: it writes one band holding the array,
at the array dimensions, with the geometry geotransform, the projection
reference projection, the no-data value on the band, flushed. -/
theorem save_tiff_r2_run (dst ref_proj ref_geom dtype : String)
    (nd : Int) (fs : FS) (tr : List Event) (p g : Raster) (t : GDT)
    (hp : gdalOpen fs ref_proj = some p) (hg : gdalOpen fs ref_geom = some g)
    (ht : dtypeToGDT dtype = some t)
    (d : List (List Int)) (h w : Nat)
    (hdims : PlaneDims d h w) (hh : 0 < h) (hw : 0 < w) :
    save_tiff dst (.r2 d) ref_proj ref_geom dtype nd fs tr =
      .ok ((dst, .savedTiff
        { width := w, height := h, nBands := 1, pixelType := t,
          geotransform := g.geotransform, projection := p.projection,
          noData := [some nd], planes := [d], flushed := true }) :: fs,
        tr ++ [.savedFile dst], ()) := by
  obtain ⟨hlen, hrows⟩ := hdims
  have hne : d ≠ [] := by
    intro hnil
    rw [hnil] at hlen
    simp at hlen
    omega
  have hhead : (d.headD []).length = w := by
    match d, hne with
    | r :: rest, _ => exact hrows r (List.mem_cons_self r rest)
  simp only [save_tiff, ht, hg, hp, hhead, hlen]
  rw [if_neg (by omega)]

/-- Run of save_tiff on a well-formed rank-3 array with at least two
last-axis layers, readable references and a recognized dtype: it writes
last-axis-length bands, each band plane the corresponding last-axis slice,
at the array dimensions, with the reference geotransform and projection,
the no-data value on every band, flushed. -/
theorem save_tiff_r3_run (dst ref_proj ref_geom dtype : String)
    (nd : Int) (fs : FS) (tr : List Event) (p g : Raster) (t : GDT)
    (hp : gdalOpen fs ref_proj = some p) (hg : gdalOpen fs ref_geom = some g)
    (ht : dtypeToGDT dtype = some t)
    (d : List (List (List Int))) (h w b : Nat)
    (hdims : Np3Dims d h w b) (hh : 0 < h) (hw : 0 < w) (hb : 1 < b) :
    save_tiff dst (.r3 d) ref_proj ref_geom dtype nd fs tr =
      .ok ((dst, .savedTiff
        { width := w, height := h, nBands := b, pixelType := t,
          geotransform := g.geotransform, projection := p.projection,
          noData := List.replicate b (some nd),
          planes := (List.range b).map (slice3 d), flushed := true }) :: fs,
        tr ++ [.savedFile dst], ()) := by
  obtain ⟨hlen, hrows⟩ := hdims
  have hne : d ≠ [] := by
    intro hnil
    rw [hnil] at hlen
    simp at hlen
    omega
  have hhead : (d.headD []).length = w ∧
      ∀ cell ∈ d.headD [], cell.length = b := by
    match d, hne with
    | r :: rest, _ => exact hrows r (List.mem_cons_self r rest)
  have hrowne : d.headD [] ≠ [] := by
    intro hnil
    have := hhead.1
    rw [hnil] at this
    simp at this
    omega
  have hcell : ((d.headD []).headD []).length = b := by
    match hd : d.headD [], hrowne with
    | c :: rest, _ =>
      exact hhead.2 c (by rw [hd]; exact List.mem_cons_self c rest)
  simp only [save_tiff, ht, hg, hp, hcell, hhead.1, hlen]
  rw [if_neg (by omega), if_pos hb]


/-- C8 counterexample.  Not every array is written with each band plane
taken from its last-axis slice and then flushed: a rank-3 array whose last
axis has length 1 makes the single-band branch hand the whole rank-3 array
to the band write, which rejects non-rank-2 input, so at this concrete
input save_tiff raises ValueError, the band plane is left unwritten, and
the output is never flushed. -/
theorem save_tiff_rank3_single_band_fails :
    save_tiff "out.tif" (.r3 [[[7], [8]], [[9], [4]]]) "ref.tif" "ref.tif"
      "Float32" (-9999)
      [("ref.tif", .raster
        { height := 2, width := 2, bands := [[[0, 0], [0, 0]]],
          geotransform := [100, 1, 0, 200, 0, -1], projection := "G" })] [] =
    .error (.valueError,
      [("out.tif", .savedTiff
        { width := 2, height := 2, nBands := 1, pixelType := .float32,
          geotransform := [100, 1, 0, 200, 0, -1], projection := "G",
          noData := [some (-9999)], planes := [[]], flushed := false }),
       ("ref.tif", .raster
        { height := 2, width := 2, bands := [[[0, 0], [0, 0]]],
          geotransform := [100, 1, 0, 200, 0, -1], projection := "G" })],
      []) := by
  rfl

/-- C8 amended.  For every rank-2 array and every rank-3 array whose last
axis has length at least 2, save_tiff infers the band count from the rank
(rank 2 gives 1 band, rank 3 gives last-axis-length bands), creates the
output at the array width and height, copies the geotransform from the
geometry reference and the projection from the projection reference (two
independent files), sets the no-data marker on every band, writes each
band plane from the corresponding last-axis slice, and flushes before
returning; a rank-3 array with a single last-axis layer instead fails the
band write (see the counterexample). -/
theorem save_tiff_writes_spec (dst ref_proj ref_geom dtype : String)
    (nd : Int) (fs : FS) (tr : List Event) (p g : Raster) (t : GDT)
    (hp : gdalOpen fs ref_proj = some p) (hg : gdalOpen fs ref_geom = some g)
    (ht : dtypeToGDT dtype = some t) :
    (∀ d h w, PlaneDims d h w → 0 < h → 0 < w →
      save_tiff dst (.r2 d) ref_proj ref_geom dtype nd fs tr =
        .ok ((dst, .savedTiff
          { width := w, height := h, nBands := 1, pixelType := t,
            geotransform := g.geotransform, projection := p.projection,
            noData := [some nd], planes := [d], flushed := true }) :: fs,
          tr ++ [.savedFile dst], ())) ∧
    (∀ d h w b, Np3Dims d h w b → 0 < h → 0 < w → 1 < b →
      save_tiff dst (.r3 d) ref_proj ref_geom dtype nd fs tr =
        .ok ((dst, .savedTiff
          { width := w, height := h, nBands := b, pixelType := t,
            geotransform := g.geotransform, projection := p.projection,
            noData := List.replicate b (some nd),
            planes := (List.range b).map (slice3 d), flushed := true }) :: fs,
          tr ++ [.savedFile dst], ())) :=
  ⟨fun d h w hdims hh hw =>
    save_tiff_r2_run dst ref_proj ref_geom dtype nd fs tr p g t hp hg ht
      d h w hdims hh hw,
   fun d h w b hdims hh hw hb =>
    save_tiff_r3_run dst ref_proj ref_geom dtype nd fs tr p g t hp hg ht
      d h w b hdims hh hw hb⟩

/-- Witness for C8 amended at concrete inputs: a 2x2 single-band write with
geometry and projection from two different reference files, and a 1x2x2
two-band write whose band planes are the last-axis slices. -/
theorem save_tiff_writes_spec_witness :
    save_tiff "o1.tif" (.r2 [[1, 2], [3, 4]]) "p.tif" "g.tif"
      "Float32" (-9999)
      [("p.tif", .raster
        { height := 5, width := 6, bands := [[]],
          geotransform := [9, 9, 9, 9, 9, 9], projection := "PJ" }),
       ("g.tif", .raster
        { height := 7, width := 8, bands := [[]],
          geotransform := [0, 2, 0, 50, 0, -2], projection := "GJ" })] [] =
      .ok ([("o1.tif", .savedTiff
        { width := 2, height := 2, nBands := 1, pixelType := .float32,
          geotransform := [0, 2, 0, 50, 0, -2], projection := "PJ",
          noData := [some (-9999)], planes := [[[1, 2], [3, 4]]],
          flushed := true }),
        ("p.tif", .raster
        { height := 5, width := 6, bands := [[]],
          geotransform := [9, 9, 9, 9, 9, 9], projection := "PJ" }),
        ("g.tif", .raster
        { height := 7, width := 8, bands := [[]],
          geotransform := [0, 2, 0, 50, 0, -2], projection := "GJ" })],
        [.savedFile "o1.tif"], ()) ∧
    save_tiff "o2.tif" (.r3 [[[1, 10], [2, 20]]]) "p.tif" "p.tif"
      "Byte" 0
      [("p.tif", .raster
        { height := 5, width := 6, bands := [[]],
          geotransform := [9, 9, 9, 9, 9, 9], projection := "PJ" })] [] =
      .ok ([("o2.tif", .savedTiff
        { width := 2, height := 1, nBands := 2, pixelType := .byte,
          geotransform := [9, 9, 9, 9, 9, 9], projection := "PJ",
          noData := [some 0, some 0],
          planes := [[[1, 2]], [[10, 20]]], flushed := true }),
        ("p.tif", .raster
        { height := 5, width := 6, bands := [[]],
          geotransform := [9, 9, 9, 9, 9, 9], projection := "PJ" })],
        [.savedFile "o2.tif"], ()) := by
  constructor
  · exact (save_tiff_writes_spec "o1.tif" "p.tif" "g.tif" "Float32" (-9999)
      [("p.tif", .raster
        { height := 5, width := 6, bands := [[]],
          geotransform := [9, 9, 9, 9, 9, 9], projection := "PJ" }),
       ("g.tif", .raster
        { height := 7, width := 8, bands := [[]],
          geotransform := [0, 2, 0, 50, 0, -2], projection := "GJ" })] []
      { height := 5, width := 6, bands := [[]],
        geotransform := [9, 9, 9, 9, 9, 9], projection := "PJ" }
      { height := 7, width := 8, bands := [[]],
        geotransform := [0, 2, 0, 50, 0, -2], projection := "GJ" }
      .float32 (by decide) (by decide) (by decide)).1
      [[1, 2], [3, 4]] 2 2 (by decide) (by decide) (by decide)
  · have h := (save_tiff_writes_spec "o2.tif" "p.tif" "p.tif" "Byte" 0
      [("p.tif", .raster
        { height := 5, width := 6, bands := [[]],
          geotransform := [9, 9, 9, 9, 9, 9], projection := "PJ" })] []
      { height := 5, width := 6, bands := [[]],
        geotransform := [9, 9, 9, 9, 9, 9], projection := "PJ" }
      { height := 5, width := 6, bands := [[]],
        geotransform := [9, 9, 9, 9, 9, 9], projection := "PJ" }
      .byte (by decide) (by decide) (by decide)).2
      [[[1, 10], [2, 20]]] 1 2 2 (by decide) (by decide) (by decide) (by decide)
    rw [h]
    rfl

/-- C9 counterexample.  save_tiff does not fail when the array shape is
inconsistent with the reference geometry raster: with a 2-by-2 reference
geometry and a 3-by-4 array it succeeds and writes the output at the array
dimensions, so no ShapeMismatch failure exists and an output raster is
written. -/
theorem save_tiff_no_shape_check :
    save_tiff "out.tif"
      (.r2 [[1, 2, 3, 4], [5, 6, 7, 8], [9, 10, 11, 12]])
      "ref.tif" "ref.tif" "Float32" (-9999)
      [("ref.tif", .raster
        { height := 2, width := 2, bands := [[[0, 0], [0, 0]]],
          geotransform := [100, 1, 0, 200, 0, -1], projection := "G" })] [] =
      .ok ([("out.tif", .savedTiff
        { width := 4, height := 3, nBands := 1, pixelType := .float32,
          geotransform := [100, 1, 0, 200, 0, -1], projection := "G",
          noData := [some (-9999)],
          planes := [[[1, 2, 3, 4], [5, 6, 7, 8], [9, 10, 11, 12]]],
          flushed := true }),
        ("ref.tif", .raster
        { height := 2, width := 2, bands := [[[0, 0], [0, 0]]],
          geotransform := [100, 1, 0, 200, 0, -1], projection := "G" })],
        [.savedFile "out.tif"], ()) ∧
    (4, 3) ≠ (2, 2) := by
  constructor
  · rfl
  · decide

/-- C9 amended.  save_tiff performs no consistency check between the array
spatial dimensions and the reference geometry raster dimensions: even when
they disagree, it succeeds, writes the output raster at the array own
width and height, and copies the reference geotransform verbatim. -/
theorem save_tiff_ignores_ref_dims (dst ref_proj ref_geom dtype : String)
    (nd : Int) (fs : FS) (tr : List Event) (p g : Raster) (t : GDT)
    (hp : gdalOpen fs ref_proj = some p) (hg : gdalOpen fs ref_geom = some g)
    (ht : dtypeToGDT dtype = some t)
    (d : List (List Int)) (h w : Nat)
    (hdims : PlaneDims d h w) (hh : 0 < h) (hw : 0 < w)
    (_hmismatch : h ≠ g.height ∨ w ≠ g.width) :
    save_tiff dst (.r2 d) ref_proj ref_geom dtype nd fs tr =
      .ok ((dst, .savedTiff
        { width := w, height := h, nBands := 1, pixelType := t,
          geotransform := g.geotransform, projection := p.projection,
          noData := [some nd], planes := [d], flushed := true }) :: fs,
        tr ++ [.savedFile dst], ()) :=
  save_tiff_r2_run dst ref_proj ref_geom dtype nd fs tr p g t hp hg ht
    d h w hdims hh hw

/-- Witness for C9 amended: a 1-by-3 array against a 9-by-9 reference
geometry succeeds and writes a 3-wide, 1-high output. -/
theorem save_tiff_ignores_ref_dims_witness :
    save_tiff "w9.tif" (.r2 [[5, 6, 7]]) "r9.tif" "r9.tif"
      "UInt16" 0
      [("r9.tif", .raster
        { height := 9, width := 9, bands := [[]],
          geotransform := [1, 1, 0, 1, 0, -1], projection := "Q" })] [] =
      .ok ([("w9.tif", .savedTiff
        { width := 3, height := 1, nBands := 1, pixelType := .uint16,
          geotransform := [1, 1, 0, 1, 0, -1], projection := "Q",
          noData := [some 0], planes := [[[5, 6, 7]]], flushed := true }),
        ("r9.tif", .raster
        { height := 9, width := 9, bands := [[]],
          geotransform := [1, 1, 0, 1, 0, -1], projection := "Q" })],
        [.savedFile "w9.tif"], ()) :=
  save_tiff_ignores_ref_dims "w9.tif" "r9.tif" "r9.tif" "UInt16" 0
    [("r9.tif", .raster
      { height := 9, width := 9, bands := [[]],
        geotransform := [1, 1, 0, 1, 0, -1], projection := "Q" })] []
    { height := 9, width := 9, bands := [[]],
      geotransform := [1, 1, 0, 1, 0, -1], projection := "Q" }
    { height := 9, width := 9, bands := [[]],
      geotransform := [1, 1, 0, 1, 0, -1], projection := "Q" }
    .uint16 (by decide) (by decide) (by decide)
    [[5, 6, 7]] 1 3 (by decide) (by decide) (by decide)
    (Or.inl (by decide))

/-- Model of gdal.BuildVRT with allowProjectionDifference (spec section
4.2): writes the lightweight non-pixel-bearing descriptor referencing the
ordered source paths to dst. -/
def gdalBuildVRT (list_files : List String) (dst : String) (fs : FS)
    (tr : List Event) : PyResult Unit :=
  .ok ((dst, .vrtDescriptor list_files) :: fs,
    tr ++ [.builtVRT list_files dst], ())

/-- GeoProcess.buildVRT (src/geosatpy.py lines 112-129), as called on an
instance: delegates to gdal.BuildVRT. -/
def buildVRT (list_files : List String) (dst : String) (fs : FS)
    (tr : List Event) : PyResult Unit :=
  gdalBuildVRT list_files dst fs tr

/-- Model of gdal.Translate materializing a virtual-mosaic descriptor to
GTiff (spec section 4.3): renders the referenced sources into a concrete
raster file; fails with RenderFailure when a source referenced by the
descriptor is missing at render time.  Translation of a non-descriptor
source is not reached by the code paths under verification. -/
def gdalTranslateVRT (vrtFile dst : String) (fs : FS)
    (tr : List Event) : PyResult Unit :=
  match fsLookup fs vrtFile with
  | some (.vrtDescriptor sources) =>
    if sources.all (fun s => (gdalOpen fs s).isSome) then
      .ok ((dst, .mosaicTiff sources) :: fs,
        tr ++ [.translatedVRT vrtFile dst], ())
    else .error (.renderFailure, fs, tr)
  | _ => .error (.renderFailure, fs, tr)

/-- GeoProcess.vrtToTiff (src/geosatpy.py lines 131-148), as called on an
instance: delegates to gdal.Translate with format GTiff. -/
def vrtToTiff (vrtFile dst : String) (fs : FS)
    (tr : List Event) : PyResult Unit :=
  gdalTranslateVRT vrtFile dst fs tr

/-- Model of os.remove: unlinks the path; a missing path raises
FileNotFoundError. -/
def osRemove (path : String) (fs : FS) (tr : List Event) : PyResult Unit :=
  if (fsLookup fs path).isSome then
    .ok (fs.filter (fun kv => kv.1 != path), tr ++ [.removedFile path], ())
  else .error (.fileNotFoundError, fs, tr)

/-- Python positional-argument binding: a call that supplies `given`
positional arguments to a plain function with `params` parameters, the last
`dflts` of which carry defaults, binds successfully exactly when
params - dflts <= given <= params; otherwise the call raises TypeError
before the body runs. -/
def callBindsOk (params dflts given : Nat) : Bool :=
  params - dflts ≤ given && given ≤ params

/-- GeoProcess.merge (src/geosatpy.py lines 150-169).  Its first statement
is `GeoProcess.buildVRT(list_files, vrt)`: an access of buildVRT on the
class, not on an instance, so the plain function buildVRT(self, list_files,
dst) receives only the two positional arguments written at the call site.
Two arguments cannot bind three parameters without defaults, so the
statement raises TypeError before any filesystem effect, and the build, the
materialization (`GeoProcess.vrtToTiff(vrt, dst)`, itself also short one
argument) and the os.remove of the temporary descriptor are never
reached. -/
def merge (list_files : List String) (vrt dst : String) (fs : FS)
    (tr : List Event) : PyResult Unit :=
  if h : callBindsOk 3 0 2 = true then absurd h (by decide)
  else .error (.typeError, fs, tr)

/-- GeoProcess.merge with its two inner class-attribute calls repaired to
the instance calls the docstring intends (self.buildVRT(list_files, vrt)
and self.vrtToTiff(vrt, dst)): build the descriptor, materialize it to the
destination, then remove the temporary descriptor, in that order. -/
def merge_fixed (list_files : List String) (vrt dst : String) (fs : FS)
    (tr : List Event) : PyResult Unit :=
  match buildVRT list_files vrt fs tr with
  | .error e => .error e
  | .ok (fs, tr, _) =>
    match vrtToTiff vrt dst fs tr with
    | .error e => .error e
    | .ok (fs, tr, _) => osRemove vrt fs tr

/-- C1.  The merge claim fails on the code as written: every call of
GeoProcess.merge raises TypeError at its first statement, because
`GeoProcess.buildVRT(list_files, vrt)` passes two positional arguments to
the three-parameter function buildVRT(self, list_files, dst).  Neither the
virtual-mosaic build, nor the materialization, nor the deletion of the
temporary descriptor runs; the filesystem is untouched and no event is
produced. -/
theorem merge_call_raises_typeError (list_files : List String)
    (vrt dst : String) (fs : FS) (tr : List Event) :
    merge list_files vrt dst fs tr = .error (.typeError, fs, tr) := rfl

theorem fsLookup_filter_self (fs : FS) (path : String) :
    fsLookup (fs.filter (fun kv => kv.1 != path)) path = none := by
  induction fs with
  | nil => rfl
  | cons kv rest ih =>
    rw [List.filter_cons]
    by_cases hk : kv.1 = path
    · simp only [hk, bne_self_eq_false, ite_false, cond_false]
      exact ih
    · rw [if_pos (by simp [hk])]
      show fsLookup (kv :: rest.filter (fun kv => kv.1 != path)) path = none
      rw [show fsLookup (kv :: rest.filter (fun kv => kv.1 != path)) path =
        if kv.1 = path then some kv.2
        else fsLookup (rest.filter (fun kv => kv.1 != path)) path from rfl]
      rw [if_neg hk]
      exact ih

theorem fsLookup_filter_other (fs : FS) (path q : String) (h : q ≠ path) :
    fsLookup (fs.filter (fun kv => kv.1 != path)) q = fsLookup fs q := by
  induction fs with
  | nil => rfl
  | cons kv rest ih =>
    rw [List.filter_cons]
    have hstep : fsLookup (kv :: rest) q =
        if kv.1 = q then some kv.2 else fsLookup rest q := rfl
    by_cases hk : kv.1 = path
    · have hkq : ¬kv.1 = q := by rw [hk]; exact fun hc => h hc.symm
      rw [if_neg (by simp [hk])]
      rw [ih, hstep, if_neg hkq]
    · rw [if_pos (by simp [hk])]
      rw [show fsLookup (kv :: rest.filter (fun kv => kv.1 != path)) q =
        if kv.1 = q then some kv.2
        else fsLookup (rest.filter (fun kv => kv.1 != path)) q from rfl]
      rw [hstep]
      by_cases hq : kv.1 = q
      · rw [if_pos hq, if_pos hq]
      · rw [if_neg hq, if_neg hq, ih]

/-- The repaired merge, when every source referenced by the freshly built
descriptor is readable at render time and the temporary path differs from
the destination: it runs build, then materialize, then remove, exactly in
that order (the event trace), the temporary descriptor file does not exist
afterwards, and the destination holds the materialized mosaic of the
sources in their given order. -/
theorem merge_fixed_success (list_files : List String) (vrt dst : String)
    (fs : FS) (tr : List Event)
    (hsrc : list_files.all
      (fun s => (gdalOpen ((vrt, .vrtDescriptor list_files) :: fs) s).isSome)
      = true)
    (hne : vrt ≠ dst) :
    merge_fixed list_files vrt dst fs tr =
      .ok (((dst, .mosaicTiff list_files) :: (vrt, .vrtDescriptor list_files)
            :: fs).filter (fun kv => kv.1 != vrt),
        tr ++ [.builtVRT list_files vrt, .translatedVRT vrt dst,
          .removedFile vrt], ()) ∧
    fsLookup (((dst, .mosaicTiff list_files) :: (vrt, .vrtDescriptor
        list_files) :: fs).filter (fun kv => kv.1 != vrt)) vrt = none ∧
    fsLookup (((dst, .mosaicTiff list_files) :: (vrt, .vrtDescriptor
        list_files) :: fs).filter (fun kv => kv.1 != vrt)) dst =
      some (.mosaicTiff list_files) := by
  have hdstne : dst ≠ vrt := fun hc => hne hc.symm
  refine ⟨?_, fsLookup_filter_self _ _, ?_⟩
  · simp only [merge_fixed, buildVRT, gdalBuildVRT, vrtToTiff,
      gdalTranslateVRT, osRemove, fsLookup, if_pos rfl, hsrc, if_true]
    rw [if_neg hdstne]
    simp [List.append_assoc]
  · rw [fsLookup_filter_other _ _ _ hdstne]
    simp [fsLookup]

/-- Witness for the repaired-merge success theorem at a concrete
filesystem with two readable sources. -/
theorem merge_fixed_success_witness :
    merge_fixed ["a.tif", "b.tif"] "tmp.vrt" "out.tif"
      [("a.tif", .raster
        { height := 1, width := 1, bands := [[[1]]],
          geotransform := [0, 1, 0, 0, 0, -1], projection := "P" }),
       ("b.tif", .raster
        { height := 1, width := 1, bands := [[[2]]],
          geotransform := [0, 1, 0, 0, 0, -1], projection := "P" })] [] =
      .ok ([("out.tif", .mosaicTiff ["a.tif", "b.tif"]),
        ("a.tif", .raster
          { height := 1, width := 1, bands := [[[1]]],
            geotransform := [0, 1, 0, 0, 0, -1], projection := "P" }),
        ("b.tif", .raster
          { height := 1, width := 1, bands := [[[2]]],
            geotransform := [0, 1, 0, 0, 0, -1], projection := "P" })],
        [.builtVRT ["a.tif", "b.tif"] "tmp.vrt",
         .translatedVRT "tmp.vrt" "out.tif",
         .removedFile "tmp.vrt"], ()) := by
  have h := (merge_fixed_success ["a.tif", "b.tif"] "tmp.vrt" "out.tif"
    [("a.tif", .raster
      { height := 1, width := 1, bands := [[[1]]],
        geotransform := [0, 1, 0, 0, 0, -1], projection := "P" }),
     ("b.tif", .raster
      { height := 1, width := 1, bands := [[[2]]],
        geotransform := [0, 1, 0, 0, 0, -1], projection := "P" })] []
    (by decide) (by decide)).1
  rw [h]
  rfl

/-- The repaired merge when materialization fails (a source referenced by
the descriptor is unreadable at render time): the failure propagates to
the caller, the temporary descriptor file is not deleted (it is present in
the failure-time filesystem), and no removal event exists. -/
theorem merge_fixed_translate_failure (list_files : List String)
    (vrt dst : String) (fs : FS) (tr : List Event)
    (hfail : list_files.all
      (fun s => (gdalOpen ((vrt, .vrtDescriptor list_files) :: fs) s).isSome)
      = false) :
    merge_fixed list_files vrt dst fs tr =
      .error (.renderFailure, (vrt, .vrtDescriptor list_files) :: fs,
        tr ++ [.builtVRT list_files vrt]) ∧
    fsLookup ((vrt, .vrtDescriptor list_files) :: fs) vrt =
      some (.vrtDescriptor list_files) := by
  constructor
  · have hself : fsLookup ((vrt, File.vrtDescriptor list_files) :: fs) vrt
        = some (.vrtDescriptor list_files) := by
      simp [fsLookup]
    have h2 : vrtToTiff vrt dst ((vrt, .vrtDescriptor list_files) :: fs)
        (tr ++ [.builtVRT list_files vrt]) =
        .error (.renderFailure, (vrt, .vrtDescriptor list_files) :: fs,
          tr ++ [.builtVRT list_files vrt]) := by
      unfold vrtToTiff gdalTranslateVRT
      rw [hself]
      show (if (list_files.all fun s =>
            (gdalOpen ((vrt, File.vrtDescriptor list_files) :: fs) s).isSome)
            = true
          then Except.ok ((dst, File.mosaicTiff list_files) ::
              (vrt, File.vrtDescriptor list_files) :: fs,
            tr ++ [Event.builtVRT list_files vrt] ++
              [Event.translatedVRT vrt dst], ())
          else Except.error (PyErr.renderFailure,
            (vrt, File.vrtDescriptor list_files) :: fs,
            tr ++ [Event.builtVRT list_files vrt])) = _
      rw [if_neg (by simp [hfail])]
    simp only [merge_fixed, buildVRT, gdalBuildVRT]
    rw [h2]
  · simp [fsLookup]

/-- Witness for the repaired-merge failure theorem: with source b.tif
missing, the render fails, the error propagates and tmp.vrt survives. -/
theorem merge_fixed_translate_failure_witness :
    merge_fixed ["a.tif", "b.tif"] "tmp.vrt" "out.tif"
      [("a.tif", .raster
        { height := 1, width := 1, bands := [[[1]]],
          geotransform := [0, 1, 0, 0, 0, -1], projection := "P" })] [] =
      .error (.renderFailure,
        [("tmp.vrt", .vrtDescriptor ["a.tif", "b.tif"]),
         ("a.tif", .raster
          { height := 1, width := 1, bands := [[[1]]],
            geotransform := [0, 1, 0, 0, 0, -1], projection := "P" })],
        [.builtVRT ["a.tif", "b.tif"] "tmp.vrt"]) := by
  have h := (merge_fixed_translate_failure ["a.tif", "b.tif"] "tmp.vrt"
    "out.tif"
    [("a.tif", .raster
      { height := 1, width := 1, bands := [[[1]]],
        geotransform := [0, 1, 0, 0, 0, -1], projection := "P" })] []
    (by decide)).1
  rw [h]
  rfl


/-- Little-endian decimal digit characters, fuel-guided so that evaluation
is structural; with fuel at least n the fuel never runs out. -/
def natDigitsCore : Nat → Nat → List Char
  | _, 0 => []
  | 0, _ + 1 => []
  | f + 1, n + 1 =>
    Nat.digitChar ((n + 1) % 10) :: natDigitsCore f ((n + 1) / 10)

/-- Little-endian decimal digit characters of a natural number; empty for
zero. -/
def natDigitsAux (n : Nat) : List Char := natDigitsCore n n

/-- Decimal rendering of a natural number, exactly as Python str() and
format() render the tile counter. -/
def natDecimal (n : Nat) : String :=
  if n = 0 then "0" else String.mk (natDigitsAux n).reverse

/-- Decoding of a decimal digit character. -/
def digitVal (c : Char) : Nat :=
  if c = '1' then 1 else if c = '2' then 2 else if c = '3' then 3
  else if c = '4' then 4 else if c = '5' then 5 else if c = '6' then 6
  else if c = '7' then 7 else if c = '8' then 8 else if c = '9' then 9
  else 0

/-- Little-endian decimal value of a digit-character list. -/
def digitsVal : List Char → Nat
  | [] => 0
  | c :: cs => digitVal c + 10 * digitsVal cs

theorem digitVal_digitChar : ∀ d, d < 10 → digitVal (Nat.digitChar d) = d := by
  decide

theorem digitsVal_natDigitsCore (fuel : Nat) :
    ∀ n, n ≤ fuel → digitsVal (natDigitsCore fuel n) = n := by
  induction fuel with
  | zero =>
    intro n hn
    match n, hn with
    | 0, _ => rfl
  | succ f ih =>
    intro n hn
    match n with
    | 0 => rfl
    | m + 1 =>
      rw [natDigitsCore, digitsVal]
      rw [digitVal_digitChar _ (Nat.mod_lt _ (by norm_num))]
      rw [ih ((m + 1) / 10)
        (Nat.le_of_lt_succ (Nat.lt_of_lt_of_le
          (Nat.div_lt_self (Nat.succ_pos m) (by norm_num)) hn))]
      exact Nat.mod_add_div (m + 1) 10

theorem digitsVal_natDigitsAux (n : Nat) :
    digitsVal (natDigitsAux n) = n :=
  digitsVal_natDigitsCore n n (Nat.le_refl n)

theorem natDecimal_inj (a b : Nat) (h : natDecimal a = natDecimal b) :
    a = b := by
  have key : ∀ x y : Nat, x = 0 → y ≠ 0 → natDecimal x ≠ natDecimal y := by
    intro x y hx hy hc
    unfold natDecimal at hc
    rw [if_pos hx, if_neg hy] at hc
    have hdata : ['0'] = (natDigitsAux y).reverse := congrArg String.data hc
    have hlist : natDigitsAux y = ['0'] := by
      have := congrArg List.reverse hdata
      simpa using this.symm
    have hv := digitsVal_natDigitsAux y
    rw [hlist] at hv
    simp [digitsVal, digitVal] at hv
    exact hy hv.symm
  by_cases ha : a = 0 <;> by_cases hb : b = 0
  · rw [ha, hb]
  · exact absurd h (key a b ha hb)
  · exact absurd h.symm (key b a hb ha)
  · unfold natDecimal at h
    rw [if_neg ha, if_neg hb] at h
    have hdata : (natDigitsAux a).reverse = (natDigitsAux b).reverse :=
      congrArg String.data h
    have hlist : natDigitsAux a = natDigitsAux b := by
      have := congrArg List.reverse hdata
      simpa using this
    rw [← digitsVal_natDigitsAux a, ← digitsVal_natDigitsAux b, hlist]

/-- The per-tile destination name tiling builds: dst, an underscore, the
decimal tile counter, and the .tif suffix. -/
def tileName (dst : String) (tile : Nat) : String :=
  dst ++ "_" ++ natDecimal tile ++ ".tif"

theorem tileName_inj (dst : String) (a b : Nat)
    (h : tileName dst a = tileName dst b) : a = b := by
  apply natDecimal_inj
  unfold tileName at h
  have hd := congrArg String.data h
  simp only [String.data_append] at hd
  have h1 : dst.data ++ "_".data ++ (natDecimal a).data =
      dst.data ++ "_".data ++ (natDecimal b).data :=
    List.append_cancel_right hd
  have h2 : (natDecimal a).data = (natDecimal b).data :=
    List.append_cancel_left h1
  cases hna : natDecimal a with
  | mk la =>
    cases hnb : natDecimal b with
    | mk lb =>
      rw [hna, hnb] at h2
      simp only at h2
      rw [h2]


/-- Ceiling division (a + b - 1) / b: the iteration count of a Python
range(0, a, b) loop for b > 0. -/
def ceilDiv (a b : Nat) : Nat := (a + b - 1) / b

/-- Python range(0, stop, step) for step > 0: the multiples of step below
stop, in increasing order. -/
def pyRange (stop step : Nat) : List Nat :=
  (List.range (ceilDiv stop step)).map (· * step)

/-- os.path.isfile on the modelled filesystem. -/
def osPathIsfile (fs : FS) (path : String) : Bool :=
  (fsLookup fs path).isSome

/-- Model of gdal.Translate with a srcWin pixel window [xoff, yoff, xsize,
ysize] (spec section 4.5: a window that extends past the source extent is
clipped by the underlying extraction, not padded): opens the source raster,
extracts the window intersected with the source extent, and writes it as a
new file of the clipped dimensions; fails when the source cannot be
opened. -/
def gdalTranslateWindow (destName src : String) (outputType : GDT)
    (noData : Option Int) (xoff yoff xsize ysize : Nat) (fs : FS)
    (tr : List Event) : PyResult Unit :=
  match gdalOpen fs src with
  | some r =>
    let cw := min xsize (r.width - xoff)
    let ch := min ysize (r.height - yoff)
    let data := r.bands.map fun p =>
      ((p.drop yoff).take ch).map fun row => (row.drop xoff).take cw
    .ok ((destName, .tileFile src cw ch outputType noData data) :: fs,
      tr ++ [.wroteTile destName cw ch], ())
  | none => .error (.renderFailure, fs, tr)

/-- GeoProcess.tiling (src/geosatpy.py lines 171-223).  After `tile = 0`,
its next statement is `im = GeoProcess.asArray(src)`: an access of asArray
on the class, not on an instance, so the plain function
asArray(self, path, band=None) receives the single positional argument src,
which binds self and leaves the defaultless parameter path unbound.  The
statement therefore raises TypeError before any read or write; no tile is
ever produced. -/
def tiling (src dst : String) (size_w size_h : Nat) (dtype : String)
    (noData : Option Int) (fs : FS) (tr : List Event) : PyResult Unit :=
  if h : callBindsOk 3 1 1 = true then absurd h (by decide)
  else .error (.typeError, fs, tr)

/-- Inner loop of the repaired tiling, over the remaining height offsets
for a fixed width offset i, threading the running tile counter: each visit
increments the counter, then skips when the destination file already
exists, otherwise extracts the window [i, j, size_w, size_h] to the tile
file (referencing outputType, which raises NameError when the dtype chain
left it unbound). -/
def tilingInner (src dst : String) (outputType : Option GDT)
    (noData : Option Int) (size_w size_h i : Nat) :
    List Nat → Nat → FS → List Event → PyResult Nat
  | [], tile, fs, tr => .ok (fs, tr, tile)
  | j :: js, tile, fs, tr =>
    let tile := tile + 1
    let destName := tileName dst tile
    if osPathIsfile fs destName then
      tilingInner src dst outputType noData size_w size_h i js tile fs tr
    else
      match outputType with
      | none => .error (.nameError, fs, tr)
      | some t =>
        match gdalTranslateWindow destName src t noData i j size_w size_h
            fs tr with
        | .error e => .error e
        | .ok (fs, tr, _) =>
          tilingInner src dst outputType noData size_w size_h i js tile fs tr

/-- Outer loop of the repaired tiling, over the remaining width offsets;
each step runs the inner loop over range(0, hgt, size_h), whose
construction raises ValueError when size_h is zero. -/
def tilingOuter (src dst : String) (outputType : Option GDT)
    (noData : Option Int) (size_w size_h hgt : Nat) :
    List Nat → Nat → FS → List Event → PyResult Nat
  | [], tile, fs, tr => .ok (fs, tr, tile)
  | i :: is, tile, fs, tr =>
    if size_h = 0 then .error (.valueError, fs, tr)
    else
      match tilingInner src dst outputType noData size_w size_h i
          (pyRange hgt size_h) tile fs tr with
      | .error e => .error e
      | .ok (fs, tr, tile) =>
        tilingOuter src dst outputType noData size_w size_h hgt is tile fs tr

/-- GeoProcess.tiling with its inner class-attribute call repaired to the
instance call the docstring intends (self.asArray(src)): reads the source
shape, then enumerates tiles with the width offset as the outer loop and
the tile counter incremented on every visited pair, skipping destinations
that already exist and extracting each remaining window.  A source that
cannot be opened leaves im = None and the shape access raises
AttributeError; a zero size_w makes range(0, w, 0) raise ValueError. -/
def tiling_fixed (src dst : String) (size_w size_h : Nat) (dtype : String)
    (noData : Option Int) (fs : FS) (tr : List Event) : PyResult Unit :=
  let im := asArray fs src none
  let outputType := dtypeToGDT dtype
  match im with
  | .noData _ => .error (.attributeError, fs, tr)
  | .raised e => .error (e, fs, tr)
  | .array a =>
    let hw : Nat × Nat :=
      match a with
      | .r2 d => (d.length, (d.headD []).length)
      | .r3 d => (d.length, (d.headD []).length)
    match hw with
    | (h, w) =>
      if size_w = 0 then .error (.valueError, fs, tr)
      else
        match tilingOuter src dst outputType noData size_w size_h h
            (pyRange w size_w) 0 fs tr with
        | .error e => .error e
        | .ok (fs, tr, _) => .ok (fs, tr, ())

/-- The tile-index-tagged visits of the inner loop started at counter
`tile` with width offset i over height offsets js. -/
def idxInner (i tile : Nat) (js : List Nat) : List (Nat × Nat × Nat) :=
  (js.enumFrom (tile + 1)).map fun kj => (kj.1, i, kj.2)

/-- The tile-index-tagged visits of the outer loop started at counter
`tile`: for each width offset the inner visits, counters consecutive. -/
def idxOuter (hgt size_h tile : Nat) : List Nat → List (Nat × Nat × Nat)
  | [] => []
  | i :: is =>
    idxInner i tile (pyRange hgt size_h) ++
      idxOuter hgt size_h (tile + (pyRange hgt size_h).length) is

/-- The clipped window samples of the tile at width offset i, height
offset j. -/
def tileData (r : Raster) (i j size_w size_h : Nat) : List Plane :=
  r.bands.map fun p =>
    ((p.drop j).take (min size_h (r.height - j))).map fun row =>
      (row.drop i).take (min size_w (r.width - i))

/-- The tile file gdal.Translate writes for the visit (i, j). -/
def tileFileFor (src : String) (r : Raster) (t : GDT) (noData : Option Int)
    (i j size_w size_h : Nat) : File :=
  .tileFile src (min size_w (r.width - i)) (min size_h (r.height - j))
    t noData (tileData r i j size_w size_h)

/-- The write event of the visit (k, i, j): the tile name carries the
counter value k, the dimensions are the window clipped at the source
boundary. -/
def tileEventFor (dst : String) (r : Raster) (size_w size_h : Nat)
    (kij : Nat × Nat × Nat) : Event :=
  .wroteTile (tileName dst kij.1) (min size_w (r.width - kij.2.1))
    (min size_h (r.height - kij.2.2))

/-- The files a tiling run writes: the visits whose destination names are
absent from the starting filesystem fs0, in visit order. -/
def expectedWrites (fs0 : FS) (src dst : String) (r : Raster) (t : GDT)
    (noData : Option Int) (size_w size_h : Nat)
    (ivs : List (Nat × Nat × Nat)) : List (String × File) :=
  ivs.filterMap fun kij =>
    if osPathIsfile fs0 (tileName dst kij.1) then none
    else some (tileName dst kij.1,
      tileFileFor src r t noData kij.2.1 kij.2.2 size_w size_h)

/-- The write events of a tiling run: one per visit whose destination name
is absent from the starting filesystem fs0, in visit order. -/
def expectedEvents (fs0 : FS) (dst : String) (r : Raster)
    (size_w size_h : Nat) (ivs : List (Nat × Nat × Nat)) : List Event :=
  ivs.filterMap fun kij =>
    if osPathIsfile fs0 (tileName dst kij.1) then none
    else some (tileEventFor dst r size_w size_h kij)


theorem idxInner_cons (i tile j : Nat) (js : List Nat) :
    idxInner i tile (j :: js) = (tile + 1, i, j) :: idxInner i (tile + 1) js := by
  simp [idxInner, List.enumFrom]

theorem expectedWrites_cons_skip (fs0 : FS) (src dst : String) (r : Raster)
    (t : GDT) (nd : Option Int) (sw sh k i j : Nat)
    (ivs : List (Nat × Nat × Nat))
    (h : osPathIsfile fs0 (tileName dst k) = true) :
    expectedWrites fs0 src dst r t nd sw sh ((k, i, j) :: ivs) =
      expectedWrites fs0 src dst r t nd sw sh ivs := by
  simp [expectedWrites, h]

theorem expectedWrites_cons_write (fs0 : FS) (src dst : String) (r : Raster)
    (t : GDT) (nd : Option Int) (sw sh k i j : Nat)
    (ivs : List (Nat × Nat × Nat))
    (h : osPathIsfile fs0 (tileName dst k) = false) :
    expectedWrites fs0 src dst r t nd sw sh ((k, i, j) :: ivs) =
      (tileName dst k, tileFileFor src r t nd i j sw sh) ::
        expectedWrites fs0 src dst r t nd sw sh ivs := by
  simp [expectedWrites, h]

theorem expectedEvents_cons_skip (fs0 : FS) (dst : String) (r : Raster)
    (sw sh k i j : Nat) (ivs : List (Nat × Nat × Nat))
    (h : osPathIsfile fs0 (tileName dst k) = true) :
    expectedEvents fs0 dst r sw sh ((k, i, j) :: ivs) =
      expectedEvents fs0 dst r sw sh ivs := by
  simp [expectedEvents, h]

theorem expectedEvents_cons_write (fs0 : FS) (dst : String) (r : Raster)
    (sw sh k i j : Nat) (ivs : List (Nat × Nat × Nat))
    (h : osPathIsfile fs0 (tileName dst k) = false) :
    expectedEvents fs0 dst r sw sh ((k, i, j) :: ivs) =
      tileEventFor dst r sw sh (k, i, j) ::
        expectedEvents fs0 dst r sw sh ivs := by
  simp [expectedEvents, h]

theorem gdalOpen_isSome (fs : FS) (src : String) (r : Raster)
    (hsrc : gdalOpen fs src = some r) :
    (fsLookup fs src).isSome = true := by
  unfold gdalOpen at hsrc
  cases hl : fsLookup fs src with
  | none => rw [hl] at hsrc; exact absurd hsrc (by simp)
  | some f => simp

theorem gdalOpen_cons_other (fs : FS) (src name : String) (f : File)
    (hne : name ≠ src) :
    gdalOpen ((name, f) :: fs) src = gdalOpen fs src := by
  unfold gdalOpen
  have : fsLookup ((name, f) :: fs) src = fsLookup fs src := by
    show (if name = src then some f else fsLookup fs src) = fsLookup fs src
    rw [if_neg hne]
  rw [this]

theorem osPathIsfile_cons_other (fs : FS) (name q : String) (f : File)
    (hne : name ≠ q) :
    osPathIsfile ((name, f) :: fs) q = osPathIsfile fs q := by
  unfold osPathIsfile
  have : fsLookup ((name, f) :: fs) q = fsLookup fs q := by
    show (if name = q then some f else fsLookup fs q) = fsLookup fs q
    rw [if_neg hne]
  rw [this]

theorem tilingInner_spec (src dst : String) (t : GDT) (nd : Option Int)
    (sw sh i : Nat) (r : Raster) (fs0 : FS) :
    ∀ (js : List Nat) (tile : Nat) (fs : FS) (tr : List Event),
    gdalOpen fs src = some r →
    (∀ k, tile < k → k ≤ tile + js.length →
      osPathIsfile fs (tileName dst k) = osPathIsfile fs0 (tileName dst k)) →
    tilingInner src dst (some t) nd sw sh i js tile fs tr =
      .ok ((expectedWrites fs0 src dst r t nd sw sh
          (idxInner i tile js)).reverse ++ fs,
        tr ++ expectedEvents fs0 dst r sw sh (idxInner i tile js),
        tile + js.length) := by
  intro js
  induction js with
  | nil =>
    intro tile fs tr _ _
    simp [tilingInner, idxInner, expectedWrites, expectedEvents]
  | cons j js ih =>
    intro tile fs tr hsrc hnames
    have hnames1 : ∀ k, tile + 1 < k → k ≤ tile + 1 + js.length →
        osPathIsfile fs (tileName dst k) =
          osPathIsfile fs0 (tileName dst k) := by
      intro k hk1 hk2
      exact hnames k (by omega) (by simp [List.length_cons]; omega)
    by_cases hex : osPathIsfile fs (tileName dst (tile + 1)) = true
    · have hex0 : osPathIsfile fs0 (tileName dst (tile + 1)) = true := by
        rw [← hnames (tile + 1) (Nat.lt_succ_self tile)
          (by simp only [List.length_cons]; omega)]
        exact hex
      have h1 : tilingInner src dst (some t) nd sw sh i (j :: js) tile fs tr
          = tilingInner src dst (some t) nd sw sh i js (tile + 1) fs tr := by
        rw [tilingInner, if_pos hex]
      rw [h1, ih (tile + 1) fs tr hsrc hnames1]
      rw [idxInner_cons,
        expectedWrites_cons_skip _ _ _ _ _ _ _ _ _ _ _ _ hex0,
        expectedEvents_cons_skip _ _ _ _ _ _ _ _ _ hex0]
      simp [List.length_cons]
      omega
    · have hexf : osPathIsfile fs (tileName dst (tile + 1)) = false :=
        Bool.not_eq_true _ ▸ (by simpa using hex)
      have hex0 : osPathIsfile fs0 (tileName dst (tile + 1)) = false := by
        rw [← hnames (tile + 1) (Nat.lt_succ_self tile)
          (by simp only [List.length_cons]; omega)]
        exact hexf
      have hsrcne : tileName dst (tile + 1) ≠ src := by
        intro hc
        have hsome := gdalOpen_isSome fs src r hsrc
        rw [← hc] at hsome
        unfold osPathIsfile at hexf
        rw [hexf] at hsome
        exact Bool.noConfusion hsome
      have htrans : gdalTranslateWindow (tileName dst (tile + 1)) src t nd
          i j sw sh fs tr =
          .ok ((tileName dst (tile + 1),
              tileFileFor src r t nd i j sw sh) :: fs,
            tr ++ [tileEventFor dst r sw sh (tile + 1, i, j)], ()) := by
        unfold gdalTranslateWindow
        rw [hsrc]
        rfl
      have h1 : tilingInner src dst (some t) nd sw sh i (j :: js) tile fs tr
          = tilingInner src dst (some t) nd sw sh i js (tile + 1)
              ((tileName dst (tile + 1),
                tileFileFor src r t nd i j sw sh) :: fs)
              (tr ++ [tileEventFor dst r sw sh (tile + 1, i, j)]) := by
        rw [tilingInner, if_neg hex, htrans]
      have hsrc' : gdalOpen ((tileName dst (tile + 1),
          tileFileFor src r t nd i j sw sh) :: fs) src = some r := by
        rw [gdalOpen_cons_other _ _ _ _ hsrcne]
        exact hsrc
      have hnames' : ∀ k, tile + 1 < k → k ≤ tile + 1 + js.length →
          osPathIsfile ((tileName dst (tile + 1),
            tileFileFor src r t nd i j sw sh) :: fs) (tileName dst k) =
          osPathIsfile fs0 (tileName dst k) := by
        intro k hk1 hk2
        have hne : tileName dst (tile + 1) ≠ tileName dst k := by
          intro hc
          have := tileName_inj dst _ _ hc
          omega
        rw [osPathIsfile_cons_other _ _ _ _ hne]
        exact hnames1 k hk1 hk2
      rw [h1, ih (tile + 1) _ _ hsrc' hnames']
      rw [idxInner_cons,
        expectedWrites_cons_write _ _ _ _ _ _ _ _ _ _ _ _ hex0,
        expectedEvents_cons_write _ _ _ _ _ _ _ _ _ hex0]
      simp [List.length_cons, List.append_assoc]
      omega


theorem idxInner_mem_bounds (i : Nat) (js : List Nat) :
    ∀ tile, ∀ kij ∈ idxInner i tile js,
      tile < kij.1 ∧ kij.1 ≤ tile + js.length := by
  induction js with
  | nil =>
    intro tile kij hmem
    simp [idxInner] at hmem
  | cons j js ih =>
    intro tile kij hmem
    rw [idxInner_cons] at hmem
    rcases List.mem_cons.mp hmem with h | h
    · subst h
      constructor
      · exact Nat.lt_succ_self tile
      · simp only [List.length_cons]
        omega
    · have := ih (tile + 1) kij h
      constructor
      · omega
      · simp only [List.length_cons]
        omega

theorem idxOuter_mem_bounds (hgt sh : Nat) (is : List Nat) :
    ∀ tile, ∀ kij ∈ idxOuter hgt sh tile is,
      tile < kij.1 ∧
        kij.1 ≤ tile + is.length * (pyRange hgt sh).length := by
  induction is with
  | nil =>
    intro tile kij hmem
    simp [idxOuter] at hmem
  | cons i is ih =>
    intro tile kij hmem
    rw [idxOuter] at hmem
    rcases List.mem_append.mp hmem with h | h
    · have := idxInner_mem_bounds i (pyRange hgt sh) tile kij h
      refine ⟨this.1, ?_⟩
      have hbound := this.2
      have : (i :: is).length * (pyRange hgt sh).length =
          (pyRange hgt sh).length + is.length * (pyRange hgt sh).length := by
        rw [List.length_cons, Nat.succ_mul, Nat.add_comm]
      rw [this]
      omega
    · have := ih (tile + (pyRange hgt sh).length) kij h
      have hrw : (i :: is).length * (pyRange hgt sh).length =
          (pyRange hgt sh).length + is.length * (pyRange hgt sh).length := by
        rw [List.length_cons, Nat.succ_mul, Nat.add_comm]
      constructor
      · omega
      · rw [hrw]
        omega

theorem expectedWrites_key (fs0 : FS) (src dst : String) (r : Raster)
    (t : GDT) (nd : Option Int) (sw sh : Nat)
    (ivs : List (Nat × Nat × Nat)) :
    ∀ kv ∈ expectedWrites fs0 src dst r t nd sw sh ivs,
      ∃ kij, kij ∈ ivs ∧ kv.1 = tileName dst kij.1 ∧
        osPathIsfile fs0 (tileName dst kij.1) = false := by
  intro kv hkv
  unfold expectedWrites at hkv
  rw [List.mem_filterMap] at hkv
  obtain ⟨kij, hmem, hf⟩ := hkv
  by_cases hex : osPathIsfile fs0 (tileName dst kij.1) = true
  · rw [if_pos hex] at hf
    exact absurd hf (by simp)
  · have hexf : osPathIsfile fs0 (tileName dst kij.1) = false := by
      simpa using hex
    rw [if_neg (by simp [hexf])] at hf
    refine ⟨kij, hmem, ?_, hexf⟩
    have := Option.some.inj hf
    rw [← this]

theorem gdalOpen_append_other (l : List (String × File)) (fs : FS)
    (src : String) (h : ∀ kv ∈ l, kv.1 ≠ src) :
    gdalOpen (l ++ fs) src = gdalOpen fs src := by
  induction l with
  | nil => rfl
  | cons kv l ih =>
    have hstep : gdalOpen ((kv.1, kv.2) :: (l ++ fs)) src =
        gdalOpen (l ++ fs) src :=
      gdalOpen_cons_other (l ++ fs) src kv.1 kv.2
        (h kv (List.mem_cons_self kv l))
    calc gdalOpen (kv :: l ++ fs) src
        = gdalOpen (l ++ fs) src := hstep
      _ = gdalOpen fs src := ih fun kv hkv => h kv (List.mem_cons_of_mem _ hkv)

theorem osPathIsfile_append_other (l : List (String × File)) (fs : FS)
    (q : String) (h : ∀ kv ∈ l, kv.1 ≠ q) :
    osPathIsfile (l ++ fs) q = osPathIsfile fs q := by
  induction l with
  | nil => rfl
  | cons kv l ih =>
    have hstep : osPathIsfile ((kv.1, kv.2) :: (l ++ fs)) q =
        osPathIsfile (l ++ fs) q :=
      osPathIsfile_cons_other (l ++ fs) kv.1 q kv.2
        (h kv (List.mem_cons_self kv l))
    calc osPathIsfile (kv :: l ++ fs) q
        = osPathIsfile (l ++ fs) q := hstep
      _ = osPathIsfile fs q := ih fun kv hkv => h kv (List.mem_cons_of_mem _ hkv)


theorem tilingOuter_spec (src dst : String) (t : GDT) (nd : Option Int)
    (sw sh hgt : Nat) (r : Raster) (fs0 : FS) (hsh : sh ≠ 0) :
    ∀ (is : List Nat) (tile : Nat) (fs : FS) (tr : List Event),
    gdalOpen fs src = some r →
    (∀ k, tile < k → k ≤ tile + is.length * (pyRange hgt sh).length →
      osPathIsfile fs (tileName dst k) = osPathIsfile fs0 (tileName dst k)) →
    tilingOuter src dst (some t) nd sw sh hgt is tile fs tr =
      .ok ((expectedWrites fs0 src dst r t nd sw sh
          (idxOuter hgt sh tile is)).reverse ++ fs,
        tr ++ expectedEvents fs0 dst r sw sh (idxOuter hgt sh tile is),
        tile + is.length * (pyRange hgt sh).length) := by
  intro is
  induction is with
  | nil =>
    intro tile fs tr _ _
    simp [tilingOuter, idxOuter, expectedWrites, expectedEvents]
  | cons i is ih =>
    intro tile fs tr hsrc hnames
    have hlenrw : (i :: is).length * (pyRange hgt sh).length =
        (pyRange hgt sh).length + is.length * (pyRange hgt sh).length := by
      rw [List.length_cons, Nat.succ_mul, Nat.add_comm]
    have hinner := tilingInner_spec src dst t nd sw sh i r fs0
      (pyRange hgt sh) tile fs tr hsrc
      (fun k hk1 hk2 => hnames k hk1 (by rw [hlenrw]; omega))
    have h1 : tilingOuter src dst (some t) nd sw sh hgt (i :: is) tile fs tr
        = tilingOuter src dst (some t) nd sw sh hgt is
            (tile + (pyRange hgt sh).length)
            ((expectedWrites fs0 src dst r t nd sw sh
              (idxInner i tile (pyRange hgt sh))).reverse ++ fs)
            (tr ++ expectedEvents fs0 dst r sw sh
              (idxInner i tile (pyRange hgt sh))) := by
      rw [tilingOuter, if_neg hsh, hinner]
    -- keys written by the inner pass differ from src and from all pending
    -- tile names
    have hkeysrc : ∀ kv ∈ (expectedWrites fs0 src dst r t nd sw sh
        (idxInner i tile (pyRange hgt sh))).reverse, kv.1 ≠ src := by
      intro kv hkv
      rw [List.mem_reverse] at hkv
      obtain ⟨kij, hmem, hname, habs⟩ :=
        expectedWrites_key fs0 src dst r t nd sw sh _ kv hkv
      intro hc
      have hbounds := idxInner_mem_bounds i (pyRange hgt sh) tile kij hmem
      have habs' : osPathIsfile fs (tileName dst kij.1) = false := by
        rw [hnames kij.1 hbounds.1 (by rw [hlenrw]; omega)]
        exact habs
      have hsome := gdalOpen_isSome fs src r hsrc
      rw [← hc, hname] at hsome
      unfold osPathIsfile at habs'
      rw [habs'] at hsome
      exact Bool.noConfusion hsome
    have hsrc' : gdalOpen ((expectedWrites fs0 src dst r t nd sw sh
        (idxInner i tile (pyRange hgt sh))).reverse ++ fs) src = some r := by
      rw [gdalOpen_append_other _ _ _ hkeysrc]
      exact hsrc
    have hnames' : ∀ k, tile + (pyRange hgt sh).length < k →
        k ≤ tile + (pyRange hgt sh).length +
          is.length * (pyRange hgt sh).length →
        osPathIsfile ((expectedWrites fs0 src dst r t nd sw sh
          (idxInner i tile (pyRange hgt sh))).reverse ++ fs)
          (tileName dst k) =
        osPathIsfile fs0 (tileName dst k) := by
      intro k hk1 hk2
      have hother : ∀ kv ∈ (expectedWrites fs0 src dst r t nd sw sh
          (idxInner i tile (pyRange hgt sh))).reverse,
          kv.1 ≠ tileName dst k := by
        intro kv hkv
        rw [List.mem_reverse] at hkv
        obtain ⟨kij, hmem, hname, _⟩ :=
          expectedWrites_key fs0 src dst r t nd sw sh _ kv hkv
        have hbounds := idxInner_mem_bounds i (pyRange hgt sh) tile kij hmem
        rw [hname]
        intro hc
        have := tileName_inj dst _ _ hc
        omega
      rw [osPathIsfile_append_other _ _ _ hother]
      exact hnames k (by omega) (by rw [hlenrw]; omega)
    rw [h1, ih (tile + (pyRange hgt sh).length) _ _ hsrc' hnames']
    rw [show idxOuter hgt sh tile (i :: is) =
      idxInner i tile (pyRange hgt sh) ++
        idxOuter hgt sh (tile + (pyRange hgt sh).length) is from rfl]
    unfold expectedWrites expectedEvents
    rw [List.filterMap_append, List.filterMap_append]
    rw [List.reverse_append]
    simp only [List.append_assoc]
    rw [hlenrw]
    have : tile + ((pyRange hgt sh).length +
        is.length * (pyRange hgt sh).length) =
        tile + (pyRange hgt sh).length +
          is.length * (pyRange hgt sh).length := by omega
    rw [this]


theorem headD_eq_getD {α : Type} (l : List α) (d : α) :
    l.headD d = l.getD 0 d := by
  cases l <;> rfl

theorem pyRange_length (stop step : Nat) :
    (pyRange stop step).length = ceilDiv stop step := by
  simp [pyRange]

/-- Reduction of the repaired tiling on a readable well-formed source of
nonzero extent and a recognized dtype: the shape read off the array is
(height, width) of the source raster, and the run is the double loop over
range(0, width, size_w) and range(0, height, size_h). -/
theorem tiling_fixed_run (src dst : String) (sw sh : Nat) (dtype : String)
    (nd : Option Int) (fs : FS) (tr : List Event) (r : Raster) (t : GDT)
    (hsrc : gdalOpen fs src = some r) (hwf : r.WF)
    (hh : 0 < r.height) (hw : 0 < r.width)
    (ht : dtypeToGDT dtype = some t) (hsw : sw ≠ 0) :
    tiling_fixed src dst sw sh dtype nd fs tr =
      match tilingOuter src dst (some t) nd sw sh r.height
          (pyRange r.width sw) 0 fs tr with
      | .error e => .error e
      | .ok (fs, tr, _) => .ok (fs, tr, ()) := by
  by_cases hm : r.bands.length > 1
  · have hasArr : asArray fs src none =
        .array (.r3 (dstack r.height r.width r.bands)) := by
      simp only [asArray, hsrc]
      rw [if_pos hm]
    have hrow : ((dstack r.height r.width r.bands).headD []).length
        = r.width := by
      rw [headD_eq_getD]
      exact dstack_row_length r.height r.width r.bands 0 hh
    simp only [tiling_fixed, hasArr, ht]
    rw [dstack_length, hrow, if_neg hsw]
  · have hone : r.bands.length = 1 := by
      have hne := hwf.1
      cases hb : r.bands with
      | nil => exact absurd hb hne
      | cons p rest =>
        rw [hb] at hm
        simp only [List.length_cons] at hm ⊢
        omega
    obtain ⟨p, hp⟩ : ∃ p, r.bands = [p] := by
      cases hb : r.bands with
      | nil => rw [hb] at hone; simp at hone
      | cons p rest =>
        rw [hb] at hone
        have hrest : rest = [] := by
          simp only [List.length_cons] at hone
          exact List.length_eq_zero.mp (by omega)
        exact ⟨p, by rw [hrest]⟩
    have hasArr : asArray fs src none = .array (.r2 p) := by
      simp only [asArray, hsrc]
      rw [if_neg (by omega), hp]
      rfl
    have hpdims : PlaneDims p r.height r.width :=
      hwf.2 p (by rw [hp]; exact List.mem_singleton.mpr rfl)
    have hplen : p.length = r.height := hpdims.1
    have hprow : (p.headD []).length = r.width := by
      have hne : p ≠ [] := by
        intro hnil
        rw [hnil] at hplen
        simp at hplen
        omega
      match p, hne with
      | row :: rest, _ =>
        exact hpdims.2 row (List.mem_cons_self row rest)
    simp only [tiling_fixed, hasArr, ht]
    rw [hplen, hprow, if_neg hsw]


theorem expectedWrites_all_absent (fs0 : FS) (src dst : String) (r : Raster)
    (t : GDT) (nd : Option Int) (sw sh : Nat) :
    ∀ ivs : List (Nat × Nat × Nat),
    (∀ kij ∈ ivs, osPathIsfile fs0 (tileName dst kij.1) = false) →
    expectedWrites fs0 src dst r t nd sw sh ivs =
      ivs.map fun kij => (tileName dst kij.1,
        tileFileFor src r t nd kij.2.1 kij.2.2 sw sh) := by
  intro ivs
  induction ivs with
  | nil => intro _; rfl
  | cons kij ivs ih =>
    intro h
    show List.filterMap _ (kij :: ivs) = _
    rw [List.filterMap_cons]
    rw [if_neg (by simp [h kij (List.mem_cons_self _ _)])]
    rw [List.map_cons]
    have := ih fun x hx => h x (List.mem_cons_of_mem _ hx)
    unfold expectedWrites at this
    rw [this]

theorem expectedEvents_all_absent (fs0 : FS) (dst : String) (r : Raster)
    (sw sh : Nat) :
    ∀ ivs : List (Nat × Nat × Nat),
    (∀ kij ∈ ivs, osPathIsfile fs0 (tileName dst kij.1) = false) →
    expectedEvents fs0 dst r sw sh ivs =
      ivs.map (tileEventFor dst r sw sh) := by
  intro ivs
  induction ivs with
  | nil => intro _; rfl
  | cons kij ivs ih =>
    intro h
    show List.filterMap _ (kij :: ivs) = _
    rw [List.filterMap_cons]
    rw [if_neg (by simp [h kij (List.mem_cons_self _ _)])]
    rw [List.map_cons]
    have := ih fun x hx => h x (List.mem_cons_of_mem _ hx)
    unfold expectedEvents at this
    rw [this]

theorem expectedEvents_length_countP (fs0 : FS) (dst : String) (r : Raster)
    (sw sh : Nat) :
    ∀ ivs : List (Nat × Nat × Nat),
    (expectedEvents fs0 dst r sw sh ivs).length +
      ivs.countP (fun kij => osPathIsfile fs0 (tileName dst kij.1)) =
      ivs.length := by
  intro ivs
  induction ivs with
  | nil => rfl
  | cons kij ivs ih =>
    rw [List.countP_cons]
    by_cases hex : osPathIsfile fs0 (tileName dst kij.1) = true
    · rw [show expectedEvents fs0 dst r sw sh (kij :: ivs) =
          expectedEvents fs0 dst r sw sh ivs from
        expectedEvents_cons_skip fs0 dst r sw sh kij.1 kij.2.1 kij.2.2
          ivs hex]
      rw [if_pos hex]
      simp only [List.length_cons]
      omega
    · have hexf : osPathIsfile fs0 (tileName dst kij.1) = false := by
        simpa using hex
      rw [show expectedEvents fs0 dst r sw sh (kij :: ivs) =
          tileEventFor dst r sw sh kij ::
            expectedEvents fs0 dst r sw sh ivs from
        expectedEvents_cons_write fs0 dst r sw sh kij.1 kij.2.1 kij.2.2
          ivs hexf]
      rw [if_neg (by simp [hexf])]
      simp only [List.length_cons]
      omega

theorem idxInner_map_fst (i tile : Nat) (js : List Nat) :
    (idxInner i tile js).map (fun kij => kij.1) =
      List.range' (tile + 1) js.length := by
  unfold idxInner
  rw [List.map_map]
  have hcomp : ((fun kij : Nat × Nat × Nat => kij.1) ∘
      fun kj : Nat × Nat => (kj.1, i, kj.2)) = Prod.fst := rfl
  rw [hcomp, List.enumFrom_map_fst]

theorem idxInner_length (i tile : Nat) (js : List Nat) :
    (idxInner i tile js).length = js.length := by
  simp [idxInner]

theorem idxOuter_length (hgt sh : Nat) (is : List Nat) :
    ∀ tile, (idxOuter hgt sh tile is).length =
      is.length * (pyRange hgt sh).length := by
  induction is with
  | nil => intro tile; simp [idxOuter]
  | cons i is ih =>
    intro tile
    rw [idxOuter, List.length_append, idxInner_length, ih]
    rw [List.length_cons, Nat.succ_mul, Nat.add_comm]

theorem idxOuter_map_fst (hgt sh : Nat) (is : List Nat) :
    ∀ tile, (idxOuter hgt sh tile is).map (fun kij => kij.1) =
      List.range' (tile + 1) (is.length * (pyRange hgt sh).length) := by
  induction is with
  | nil => intro tile; simp [idxOuter]
  | cons i is ih =>
    intro tile
    rw [idxOuter, List.map_append, idxInner_map_fst, ih]
    have harg : tile + (pyRange hgt sh).length + 1 =
        tile + 1 + (pyRange hgt sh).length := by omega
    rw [harg, List.range'_append_1]
    rw [List.length_cons, Nat.succ_mul]

theorem fsLookup_cons_other (fs : FS) (name q : String) (f : File)
    (hne : name ≠ q) :
    fsLookup ((name, f) :: fs) q = fsLookup fs q := by
  show (if name = q then some f else fsLookup fs q) = fsLookup fs q
  rw [if_neg hne]

theorem fsLookup_append_other (l : List (String × File)) (fs : FS)
    (q : String) (h : ∀ kv ∈ l, kv.1 ≠ q) :
    fsLookup (l ++ fs) q = fsLookup fs q := by
  induction l with
  | nil => rfl
  | cons kv l ih =>
    have hstep : fsLookup ((kv.1, kv.2) :: (l ++ fs)) q =
        fsLookup (l ++ fs) q :=
      fsLookup_cons_other (l ++ fs) kv.1 q kv.2
        (h kv (List.mem_cons_self kv l))
    calc fsLookup (kv :: l ++ fs) q
        = fsLookup (l ++ fs) q := hstep
      _ = fsLookup fs q := ih fun kv hkv => h kv (List.mem_cons_of_mem _ hkv)


/-- The repaired tiling on a fresh job (no destination tile exists yet),
with a readable well-formed source, valid tile sizes smaller than the
source extent, and a recognized dtype: it writes exactly
ceil(width / size_w) * ceil(height / size_h) tiles, one per visited
(i, j) offset pair with the width offset as the outer loop; the k-th write
(k counted from 1 in visit order) goes to tileName dst k, and its recorded
dimensions are the requested window clipped at the source boundary.  The
conjuncts state: the run equation, the tile count, and that the tile
indices are exactly 1..N in visit order. -/
theorem tiling_fixed_fresh_spec (src dst : String) (sw sh : Nat)
    (dtype : String) (nd : Option Int) (fs : FS) (tr : List Event)
    (r : Raster) (t : GDT)
    (hsrc : gdalOpen fs src = some r) (hwf : r.WF)
    (hh : 0 < r.height) (hw : 0 < r.width)
    (ht : dtypeToGDT dtype = some t)
    (hsw : 0 < sw) (hsh : 0 < sh)
    (_hswlt : sw < r.width) (_hshlt : sh < r.height)
    (hfresh : ∀ k, k ≤ ceilDiv r.width sw * ceilDiv r.height sh →
      osPathIsfile fs (tileName dst k) = false) :
    tiling_fixed src dst sw sh dtype nd fs tr =
      .ok (((idxOuter r.height sh 0 (pyRange r.width sw)).map fun kij =>
          (tileName dst kij.1,
            tileFileFor src r t nd kij.2.1 kij.2.2 sw sh)).reverse ++ fs,
        tr ++ (idxOuter r.height sh 0 (pyRange r.width sw)).map
          (tileEventFor dst r sw sh), ()) ∧
    ((idxOuter r.height sh 0 (pyRange r.width sw)).map
        (tileEventFor dst r sw sh)).length =
      ceilDiv r.width sw * ceilDiv r.height sh ∧
    (idxOuter r.height sh 0 (pyRange r.width sw)).map (fun kij => kij.1) =
      List.range' 1 (ceilDiv r.width sw * ceilDiv r.height sh) := by
  have hN : (pyRange r.width sw).length * (pyRange r.height sh).length =
      ceilDiv r.width sw * ceilDiv r.height sh := by
    rw [pyRange_length, pyRange_length]
  have habsent : ∀ kij ∈ idxOuter r.height sh 0 (pyRange r.width sw),
      osPathIsfile fs (tileName dst kij.1) = false := by
    intro kij hmem
    have hb := idxOuter_mem_bounds r.height sh (pyRange r.width sw) 0
      kij hmem
    exact hfresh kij.1 (by rw [← hN]; omega)
  refine ⟨?_, ?_, ?_⟩
  · rw [tiling_fixed_run src dst sw sh dtype nd fs tr r t hsrc hwf hh hw ht
      (by omega)]
    rw [tilingOuter_spec src dst t nd sw sh r.height r fs (by omega)
      (pyRange r.width sw) 0 fs tr hsrc (fun k _ _ => rfl)]
    rw [expectedWrites_all_absent fs src dst r t nd sw sh _ habsent,
      expectedEvents_all_absent fs dst r sw sh _ habsent]
  · rw [List.length_map, idxOuter_length, hN]
  · rw [idxOuter_map_fst, hN]

/-- The repaired tiling re-run on a job where some destination tiles
already exist: with K of the N = ceil(width / size_w) * ceil(height /
size_h) tile names already present, it performs exactly N - K new writes
(one per absent name, stated as writes + K = N), every pre-existing file is
left exactly as it was, and the tile numbering is the same as in a fresh
run: the index attached to each visited offset pair is determined by the
visit order alone (indices 1..N), independent of which files exist. -/
theorem tiling_fixed_resume_spec (src dst : String) (sw sh : Nat)
    (dtype : String) (nd : Option Int) (fs : FS) (tr : List Event)
    (r : Raster) (t : GDT)
    (hsrc : gdalOpen fs src = some r) (hwf : r.WF)
    (hh : 0 < r.height) (hw : 0 < r.width)
    (ht : dtypeToGDT dtype = some t)
    (hsw : 0 < sw) (hsh : 0 < sh) :
    tiling_fixed src dst sw sh dtype nd fs tr =
      .ok ((expectedWrites fs src dst r t nd sw sh
          (idxOuter r.height sh 0 (pyRange r.width sw))).reverse ++ fs,
        tr ++ expectedEvents fs dst r sw sh
          (idxOuter r.height sh 0 (pyRange r.width sw)), ()) ∧
    (expectedEvents fs dst r sw sh
        (idxOuter r.height sh 0 (pyRange r.width sw))).length +
      (idxOuter r.height sh 0 (pyRange r.width sw)).countP
        (fun kij => osPathIsfile fs (tileName dst kij.1)) =
      ceilDiv r.width sw * ceilDiv r.height sh ∧
    (∀ name f, fsLookup fs name = some f →
      fsLookup ((expectedWrites fs src dst r t nd sw sh
          (idxOuter r.height sh 0 (pyRange r.width sw))).reverse ++ fs)
        name = some f) ∧
    (idxOuter r.height sh 0 (pyRange r.width sw)).map (fun kij => kij.1) =
      List.range' 1 (ceilDiv r.width sw * ceilDiv r.height sh) := by
  have hN : (pyRange r.width sw).length * (pyRange r.height sh).length =
      ceilDiv r.width sw * ceilDiv r.height sh := by
    rw [pyRange_length, pyRange_length]
  refine ⟨?_, ?_, ?_, ?_⟩
  · rw [tiling_fixed_run src dst sw sh dtype nd fs tr r t hsrc hwf hh hw ht
      (by omega)]
    rw [tilingOuter_spec src dst t nd sw sh r.height r fs (by omega)
      (pyRange r.width sw) 0 fs tr hsrc (fun k _ _ => rfl)]
  · rw [expectedEvents_length_countP, idxOuter_length, hN]
  · intro name f hname
    have hkeys : ∀ kv ∈ (expectedWrites fs src dst r t nd sw sh
        (idxOuter r.height sh 0 (pyRange r.width sw))).reverse,
        kv.1 ≠ name := by
      intro kv hkv
      rw [List.mem_reverse] at hkv
      obtain ⟨kij, _, hkvname, habs⟩ :=
        expectedWrites_key fs src dst r t nd sw sh _ kv hkv
      intro hc
      rw [hc] at hkvname
      rw [← hkvname] at habs
      unfold osPathIsfile at habs
      rw [hname] at habs
      exact Bool.noConfusion habs
    rw [fsLookup_append_other _ _ _ hkeys]
    exact hname
  · rw [idxOuter_map_fst, hN]

/-- C2.  The tile-count claim fails on the code as written: every call of
GeoProcess.tiling raises TypeError at its second statement, because
`im = GeoProcess.asArray(src)` passes the single positional argument src to
the function asArray(self, path, band=None), binding self and leaving path
unbound.  No tile file is ever produced — in particular never the claimed
ceil(width / tileWidth) * ceil(height / tileHeight) many — the filesystem
is untouched and no event is recorded. -/
theorem tiling_call_raises_typeError (src dst : String)
    (size_w size_h : Nat) (dtype : String) (noData : Option Int)
    (fs : FS) (tr : List Event) :
    tiling src dst size_w size_h dtype noData fs tr =
      .error (.typeError, fs, tr) := rfl

/-- C3.  The idempotent-resume claim fails on the code as written:
re-running GeoProcess.tiling over any filesystem — in particular one where
K of the N destination tiles already exist — raises the same TypeError
before reading or writing anything, so it performs zero new file writes
rather than the claimed N - K, and the pre-existing files survive only
because the call does nothing at all. -/
theorem tiling_rerun_raises_typeError (src dst : String)
    (size_w size_h : Nat) (dtype : String) (noData : Option Int)
    (fs : FS) :
    tiling src dst size_w size_h dtype noData fs [] =
      .error (.typeError, fs, []) := rfl


/-- A one-band 4-by-5 sample raster for the tiling runs. -/
def demoTileRaster : Raster :=
  { height := 4, width := 5,
    bands := [[[0, 0, 0, 0, 0], [0, 1, 2, 3, 4], [0, 2, 4, 6, 8],
      [0, 3, 6, 9, 12]]],
    geotransform := [0, 1, 0, 0, 0, -1], projection := "D" }

/-- A filesystem holding only the tiling source. -/
def demoTileFS : FS := [("s.tif", .raster demoTileRaster)]

/-- A filesystem where tiles 1 and 3 of the prefix o already exist. -/
def demoResumeFS : FS :=
  [("o_1.tif", .tileFile "s.tif" 2 2 .float32 none []),
   ("o_3.tif", .tileFile "s.tif" 2 2 .float32 none []),
   ("s.tif", .raster demoTileRaster)]

/-- Concrete instantiation of the fresh tiling run: a 5-wide, 4-high
source with 2-by-2 tiles yields six tiles indexed 1..6. -/
theorem tiling_fixed_fresh_demo :
    (idxOuter demoTileRaster.height 2 0
        (pyRange demoTileRaster.width 2)).map (fun kij => kij.1) =
      [1, 2, 3, 4, 5, 6] ∧
    ((idxOuter demoTileRaster.height 2 0
        (pyRange demoTileRaster.width 2)).map
      (tileEventFor "o" demoTileRaster 2 2)).length = 6 := by
  have h := tiling_fixed_fresh_spec "s.tif" "o" 2 2 "Float32" none
    demoTileFS [] demoTileRaster .float32 (by decide) (by decide)
    (by decide) (by decide) (by decide) (by decide) (by decide) (by decide)
    (by decide) (by decide)
  constructor
  · rw [h.2.2]; decide
  · rw [h.2.1]; decide

/-- Concrete instantiation of the resumed tiling run: with tiles 1 and 3
of six already present, exactly four new writes happen. -/
theorem tiling_fixed_resume_demo :
    (expectedEvents demoResumeFS "o" demoTileRaster 2 2
      (idxOuter demoTileRaster.height 2 0
        (pyRange demoTileRaster.width 2))).length = 4 := by
  have h := (tiling_fixed_resume_spec "s.tif" "o" 2 2 "Float32" none
    demoResumeFS [] demoTileRaster .float32 (by decide) (by decide)
    (by decide) (by decide) (by decide) (by decide) (by decide)).2.1
  have hK : (idxOuter demoTileRaster.height 2 0
      (pyRange demoTileRaster.width 2)).countP
      (fun kij => osPathIsfile demoResumeFS (tileName "o" kij.1)) = 2 := by
    decide
  have hN : ceilDiv demoTileRaster.width 2 * ceilDiv demoTileRaster.height 2
      = 6 := by decide
  rw [hK, hN] at h
  omega

end Geosatpy
